import Mathlib

/-!
Verification of the calendar core of the Velo mail client: the iCalendar
text codec icalHelper.ts (generateVEvent / parseVEvent), the Google
token-based provider (googleCalendarProvider.ts), the CalDAV
resource-based provider (caldavProvider.ts) and the provider factory
(providerFactory).

Strings are modelled as lists of characters (`Str`), instants as seconds
since the Unix epoch, and the JavaScript timezone environment as an explicit
offset `tz : Int` (seconds east of UTC, fixed — no DST), so that a local
wall-clock reading `w` corresponds to the UTC instant `w - tz`.
-/

/-- Character-list strings: the model works on `List Char` throughout. -/
abbrev Str := List Char

/-- Shorthand turning a Lean string literal into the `Str` model type. -/
def str (s : String) : Str := s.toList

/-- Does `hay` begin with `needle`? -/
def beginsWith : Str → Str → Bool
  | [], _ => true
  | _ :: _, [] => false
  | a :: as, b :: bs => a = b && beginsWith as bs

/-- Substring test, the model of JavaScript `String.prototype.includes`. -/
def containsSeg (needle : Str) : Str → Bool
  | [] => beginsWith needle []
  | c :: rest => beginsWith needle (c :: rest) || containsSeg needle rest

/-- JavaScript string truthiness: an optional string is truthy iff it is
present and non-empty. -/
def truthyOptStr : Option Str → Bool
  | none => false
  | some s => decide (s ≠ [])

/-- ASCII lower-casing of one character. -/
def toLowerChar (c : Char) : Char :=
  if 'A' ≤ c ∧ c ≤ 'Z' then Char.ofNat (c.toNat + 32) else c

/-- ASCII lower-casing of a string. -/
def toLowerStr (s : Str) : Str := s.map toLowerChar

/-- ASCII upper-casing of one character. -/
def toUpperChar (c : Char) : Char :=
  if 'a' ≤ c ∧ c ≤ 'z' then Char.ofNat (c.toNat - 32) else c

/-- ASCII upper-casing of a string. -/
def toUpperStr (s : Str) : Str := s.map toUpperChar

/-- Split at the first occurrence of `sep`; `none` when `sep` is absent. -/
def splitFirst (sep : Char) : Str → Option (Str × Str)
  | [] => none
  | c :: rest =>
    if c = sep then some ([], rest)
    else (splitFirst sep rest).map (fun p => (c :: p.1, p.2))

/-- Split on every occurrence of `sep` (the model of `String.split`). -/
def splitAll (sep : Char) : Str → List Str
  | [] => [[]]
  | c :: rest =>
    let r := splitAll sep rest
    if c = sep then [] :: r else (c :: r.headD []) :: r.tail

/-- Join lines with the protocol-mandated CRLF separator. -/
def joinCRLF : List Str → Str
  | [] => []
  | [l] => l
  | l :: rest => l ++ '\r' :: '\n' :: joinCRLF rest

/-! ## Proleptic Gregorian calendar arithmetic

The JavaScript `Date` conversions used by the codec are modelled by
explicit calendar arithmetic on seconds since the epoch (1970-01-01).
Instants handled by the model are at or after the epoch. -/

/-- Gregorian leap-year test. -/
def isLeap (y : Nat) : Bool := (y % 4 = 0 && y % 100 ≠ 0) || y % 400 = 0

/-- Number of days in year `y`. -/
def daysInYear (y : Nat) : Nat := if isLeap y then 366 else 365

/-- Month lengths for a (non-)leap year. -/
def monthLens (leap : Bool) : List Nat :=
  [31, if leap then 29 else 28, 31, 30, 31, 30, 31, 31, 30, 31, 30, 31]

/-- Total days in the `n` years starting at year `y0`. -/
def yearsSpanN (y0 : Nat) : Nat → Nat
  | 0 => 0
  | n + 1 => daysInYear y0 + yearsSpanN (y0 + 1) n

/-- Days between 1970-01-01 and the start of year `y` (for `y ≥ 1970`). -/
def daysSinceEpochOfYear (y : Nat) : Nat := yearsSpanN 1970 (y - 1970)

/-- Fuel-driven year search: starting at year `y`, peel whole years off a
day count.  Returns the year reached and the remaining day-of-year. -/
def yearFromDaysGo : Nat → Nat → Nat → Nat × Nat
  | 0, days, y => (y, days)
  | fuel + 1, days, y =>
    if days < daysInYear y then (y, days)
    else yearFromDaysGo fuel (days - daysInYear y) (y + 1)

/-- Year and day-of-year of a day count since 1970-01-01. -/
def yearFromDays (days : Nat) : Nat × Nat := yearFromDaysGo (days + 1) days 1970

/-- Month search over a list of month lengths: returns the 0-based month
index and the 0-based day-of-month of a 0-based day-of-year. -/
def monthFromDoy : List Nat → Nat → Nat × Nat
  | [], doy => (0, doy)
  | len :: rest, doy =>
    if doy < len then (0, doy)
    else
      let p := monthFromDoy rest (doy - len)
      (p.1 + 1, p.2)

/-- Sum of the first `k` entries of a list. -/
def sumTake (lens : List Nat) (k : Nat) : Nat := (lens.take k).sum

/-- Broken-down UTC date-time. -/
structure DateTimeParts where
  year : Nat
  month : Nat
  day : Nat
  hour : Nat
  minute : Nat
  second : Nat
deriving DecidableEq, Repr

/-- Day count since 1970-01-01 of a calendar date (1-based month and day).
Out-of-range days simply overflow into the following months, matching the
normalising behaviour of JavaScript `Date`. -/
def dateToDays (y m d : Nat) : Nat :=
  daysSinceEpochOfYear y + sumTake (monthLens (isLeap y)) (m - 1) + (d - 1)

/-- Calendar date (1-based month and day) of a day count since 1970-01-01. -/
def epochToDate (days : Nat) : Nat × Nat × Nat :=
  let p := yearFromDays days
  let q := monthFromDoy (monthLens (isLeap p.1)) p.2
  (p.1, q.1 + 1, q.2 + 1)

/-- Broken-down UTC date-time of an epoch-seconds instant. -/
def epochToDateTime (t : Nat) : DateTimeParts :=
  let days := t / 86400
  let rem := t % 86400
  let d := epochToDate days
  { year := d.1, month := d.2.1, day := d.2.2
    hour := rem / 3600, minute := rem % 3600 / 60, second := rem % 60 }

/-- Epoch seconds of a broken-down UTC date-time. -/
def dateTimeToEpochN (y m d h mi s : Nat) : Nat :=
  86400 * dateToDays y m d + 3600 * h + 60 * mi + s

/-! ### Calendar round-trip lemmas -/

theorem daysInYear_ge (y : Nat) : 365 ≤ daysInYear y := by
  unfold daysInYear; split <;> omega

theorem yearsSpanN_succ_right (y0 k : Nat) :
    yearsSpanN y0 (k + 1) = yearsSpanN y0 k + daysInYear (y0 + k) := by
  induction k generalizing y0 with
  | zero => simp [yearsSpanN]
  | succ n ih =>
    have h1 : yearsSpanN y0 (n + 1 + 1) = daysInYear y0 + yearsSpanN (y0 + 1) (n + 1) := rfl
    rw [h1, ih (y0 + 1)]
    have h2 : yearsSpanN y0 (n + 1) = daysInYear y0 + yearsSpanN (y0 + 1) n := rfl
    rw [h2]
    have h3 : y0 + 1 + n = y0 + (n + 1) := by omega
    rw [h3]
    omega

theorem yearFromDaysGo_spec (fuel days y0 : Nat) (h : days < 365 * fuel) :
    ∃ k, yearFromDaysGo fuel days y0 = (y0 + k, days - yearsSpanN y0 k) ∧
      yearsSpanN y0 k ≤ days ∧
      days - yearsSpanN y0 k < daysInYear (y0 + k) := by
  induction fuel generalizing days y0 with
  | zero => omega
  | succ n ih =>
    rw [yearFromDaysGo]
    split
    · exact ⟨0, by simp [yearsSpanN], by simp [yearsSpanN], by simpa [yearsSpanN]⟩
    · have hge : daysInYear y0 ≤ days := by omega
      have h365 := daysInYear_ge y0
      have hlt : days - daysInYear y0 < 365 * n := by omega
      obtain ⟨k, hk, hle, hrem⟩ := ih (days - daysInYear y0) (y0 + 1) hlt
      refine ⟨k + 1, ?_, ?_, ?_⟩
      · rw [hk]
        have hs : yearsSpanN y0 (k + 1) = daysInYear y0 + yearsSpanN (y0 + 1) k := rfl
        have : y0 + 1 + k = y0 + (k + 1) := by omega
        rw [this] at *
        congr 1
        omega
      · have hs : yearsSpanN y0 (k + 1) = daysInYear y0 + yearsSpanN (y0 + 1) k := rfl
        omega
      · have hs : yearsSpanN y0 (k + 1) = daysInYear y0 + yearsSpanN (y0 + 1) k := rfl
        have : y0 + 1 + k = y0 + (k + 1) := by omega
        rw [this] at hrem
        omega

theorem yearFromDays_spec (days : Nat) :
    ∃ k, yearFromDays days = (1970 + k, days - yearsSpanN 1970 k) ∧
      yearsSpanN 1970 k ≤ days ∧
      days - yearsSpanN 1970 k < daysInYear (1970 + k) := by
  exact yearFromDaysGo_spec (days + 1) days 1970 (by omega)

theorem daysSinceEpochOfYear_add (k : Nat) :
    daysSinceEpochOfYear (1970 + k) = yearsSpanN 1970 k := by
  unfold daysSinceEpochOfYear
  have h : 1970 + k - 1970 = k := by omega
  rw [h]

theorem monthFromDoy_spec (lens : List Nat) (doy : Nat) (h : doy < lens.sum) :
    sumTake lens (monthFromDoy lens doy).1 + (monthFromDoy lens doy).2 = doy ∧
      (monthFromDoy lens doy).1 < lens.length ∧
      (monthFromDoy lens doy).2 < lens.getD (monthFromDoy lens doy).1 0 := by
  induction lens generalizing doy with
  | nil => simp at h
  | cons len rest ih =>
    rw [monthFromDoy]
    split
    · refine ⟨by simp [sumTake], by simp, by simpa⟩
    · have hge : len ≤ doy := by omega
      have hlt : doy - len < rest.sum := by
        simp [List.sum_cons] at h
        omega
      obtain ⟨h1, h2, h3⟩ := ih (doy - len) hlt
      refine ⟨?_, by simpa using h2, by simpa using h3⟩
      simp only
      have hs : sumTake (len :: rest) ((monthFromDoy rest (doy - len)).1 + 1) =
          len + sumTake rest (monthFromDoy rest (doy - len)).1 := by
        simp [sumTake, List.take_cons]
      rw [hs]
      omega

theorem monthLens_sum (b : Bool) : (monthLens b).sum = if b then 366 else 365 := by
  cases b <;> decide

theorem monthLens_entry_le (b : Bool) : ∀ x ∈ monthLens b, x ≤ 31 := by
  cases b <;> decide

theorem getD_le_of_forall31 (l : List Nat) (i : Nat) (h : ∀ x ∈ l, x ≤ 31) :
    l.getD i 0 ≤ 31 := by
  induction l generalizing i with
  | nil => simp [List.getD]
  | cons a as ih =>
    cases i with
    | zero => simpa using h a (by simp)
    | succ n =>
      have := ih n (fun x hx => h x (by simp [hx]))
      simpa using this

theorem epochToDate_roundtrip (days : Nat) :
    dateToDays (epochToDate days).1 (epochToDate days).2.1 (epochToDate days).2.2 = days ∧
      1 ≤ (epochToDate days).2.1 ∧ (epochToDate days).2.1 ≤ 12 ∧
      1 ≤ (epochToDate days).2.2 ∧ (epochToDate days).2.2 ≤ 31 := by
  obtain ⟨k, hk, hle, hrem⟩ := yearFromDays_spec days
  have hsum : (monthLens (isLeap (1970 + k))).sum = daysInYear (1970 + k) := by
    rw [monthLens_sum]
    unfold daysInYear
    cases isLeap (1970 + k) <;> simp
  have hlt : days - yearsSpanN 1970 k < (monthLens (isLeap (1970 + k))).sum := by
    rw [hsum]; exact hrem
  obtain ⟨m1, m2, m3⟩ := monthFromDoy_spec (monthLens (isLeap (1970 + k)))
    (days - yearsSpanN 1970 k) hlt
  have hlen : (monthLens (isLeap (1970 + k))).length = 12 := by
    cases isLeap (1970 + k) <;> rfl
  have hday : (monthFromDoy (monthLens (isLeap (1970 + k))) (days - yearsSpanN 1970 k)).2 ≤ 30 := by
    have h31 := getD_le_of_forall31 (monthLens (isLeap (1970 + k)))
      (monthFromDoy (monthLens (isLeap (1970 + k))) (days - yearsSpanN 1970 k)).1
      (monthLens_entry_le (isLeap (1970 + k)))
    omega
  unfold epochToDate
  rw [hk]
  simp only
  refine ⟨?_, by omega, by omega, by omega, by omega⟩
  unfold dateToDays
  rw [daysSinceEpochOfYear_add]
  simp only [Nat.add_sub_cancel]
  omega

theorem dateTime_roundtrip (t : Nat) :
    dateTimeToEpochN (epochToDateTime t).year (epochToDateTime t).month
      (epochToDateTime t).day (epochToDateTime t).hour (epochToDateTime t).minute
      (epochToDateTime t).second = t := by
  obtain ⟨h1, _, _, _, _⟩ := epochToDate_roundtrip (t / 86400)
  unfold epochToDateTime dateTimeToEpochN at *
  simp only at *
  rw [h1]
  omega

theorem epochToDateTime_bounds (t : Nat) :
    1 ≤ (epochToDateTime t).month ∧ (epochToDateTime t).month ≤ 12 ∧
      1 ≤ (epochToDateTime t).day ∧ (epochToDateTime t).day ≤ 31 ∧
      (epochToDateTime t).hour ≤ 23 ∧ (epochToDateTime t).minute ≤ 59 ∧
      (epochToDateTime t).second ≤ 59 := by
  obtain ⟨_, h2, h3, h4, h5⟩ := epochToDate_roundtrip (t / 86400)
  unfold epochToDateTime at *
  simp only at *
  refine ⟨h2, h3, h4, h5, ?_, ?_, ?_⟩ <;> omega

/-! ## Fixed-width decimal formatting and parsing -/

/-- Decimal digit character of `d % 10`-style values. -/
def digitChar : Nat → Char
  | 0 => '0'
  | 1 => '1'
  | 2 => '2'
  | 3 => '3'
  | 4 => '4'
  | 5 => '5'
  | 6 => '6'
  | 7 => '7'
  | 8 => '8'
  | 9 => '9'
  | _ => '0'

/-- Numeric value of a digit character. -/
def digitVal (c : Char) : Nat := c.toNat - 48

/-- Left-to-right decimal reading of a character list. -/
def readNat (s : Str) : Nat := s.foldl (fun acc c => acc * 10 + digitVal c) 0

/-- Zero-padded four-digit rendering (the model of padStart(4, "0") on a
year below 10000). -/
def pad4 (n : Nat) : Str :=
  [digitChar (n / 1000 % 10), digitChar (n / 100 % 10), digitChar (n / 10 % 10),
   digitChar (n % 10)]

/-- Zero-padded two-digit rendering. -/
def pad2 (n : Nat) : Str := [digitChar (n / 10 % 10), digitChar (n % 10)]

theorem digitVal_digitChar (q : Nat) (h : q < 10) : digitVal (digitChar q) = q := by
  interval_cases q <;> rfl

theorem readNat_pad4 (n : Nat) (h : n < 10000) : readNat (pad4 n) = n := by
  unfold readNat pad4
  simp only [List.foldl]
  rw [digitVal_digitChar _ (by omega), digitVal_digitChar _ (by omega),
    digitVal_digitChar _ (by omega), digitVal_digitChar _ (by omega)]
  omega

theorem readNat_pad2 (n : Nat) (h : n < 100) : readNat (pad2 n) = n := by
  unfold readNat pad2
  simp only [List.foldl]
  rw [digitVal_digitChar _ (by omega), digitVal_digitChar _ (by omega)]
  omega

theorem digitChar_ne_Z (q : Nat) : digitChar q ≠ 'Z' := by
  unfold digitChar
  split <;> decide

theorem digitChar_ne_LF (q : Nat) : digitChar q ≠ '\n' := by
  unfold digitChar
  split <;> decide

/-! ## Calendar text codec (icalHelper.ts)

The source of `generateVEvent` / `parseVEvent` and their helpers is the
icalHelper module staged together with googleCalendarProvider.test.ts.
The definitions below mirror it function by function.  JavaScript strings
are `Str`, instants are epoch seconds, regular-expression global replaces
are modelled by the equivalent single left-to-right pass, and the local
timezone is the fixed offset `tz`. -/

/-- Attendee record of the canonical event shape. -/
structure AttendeeData where
  email : Str
  displayName : Option Str
  responseStatus : Option Str
deriving DecidableEq, Repr

/-- Canonical backend-agnostic event data (`CalendarEventData` in
types.ts).  `attendeesJson` is modelled as the parsed list rather than its
JSON string rendering; `none` models the SQL NULL. -/
structure CalendarEventData where
  remoteEventId : Str
  uid : Option Str
  etag : Option Str
  summary : Option Str
  description : Option Str
  location : Option Str
  startTime : Int
  endTime : Int
  isAllDay : Bool
  status : Str
  organizerEmail : Option Str
  attendeesJson : Option (List AttendeeData)
  htmlLink : Option Str
  icalData : Option Str
deriving DecidableEq, Repr

/-- The input consumed by generateVEvent: the union of CreateEventInput
and UpdateEventInput from types.ts.  A `none` string field models an
undefined or empty (falsy) value; `some t` in `startTime`/`endTime`
models a non-empty ISO string via the instant it denotes; `isAllDay`
is the truthiness of the optional flag; `attendees` is `none` when the
field is missing from the input object. -/
structure VEventInput where
  summary : Option Str
  description : Option Str
  location : Option Str
  startTime : Option Nat
  endTime : Option Nat
  isAllDay : Bool
  attendees : Option (List Str)
deriving DecidableEq, Repr

/-- escapeICalText: backslash, then semicolon, comma, newline.  The four
sequential global replaces act independently on each original character,
which is exactly this single pass. -/
def escapeICalText : Str → Str
  | [] => []
  | c :: rest =>
    if c = '\\' then '\\' :: '\\' :: escapeICalText rest
    else if c = ';' then '\\' :: ';' :: escapeICalText rest
    else if c = ',' then '\\' :: ',' :: escapeICalText rest
    else if c = '\n' then '\\' :: 'n' :: escapeICalText rest
    else c :: escapeICalText rest

/-- First pass of unescapeICalText: the case-insensitive global replace
of backslash-n (or backslash-N) by a line feed, as one left-to-right
scan. -/
def replaceBsN : Str → Str
  | [] => []
  | [c] => [c]
  | a :: b :: rest =>
    if a = '\\' ∧ (b = 'n' ∨ b = 'N') then '\n' :: replaceBsN rest
    else a :: replaceBsN (b :: rest)

/-- Second pass: backslash-comma to comma. -/
def replaceBsComma : Str → Str
  | [] => []
  | [c] => [c]
  | a :: b :: rest =>
    if a = '\\' ∧ b = ',' then ',' :: replaceBsComma rest
    else a :: replaceBsComma (b :: rest)

/-- Third pass: backslash-semicolon to semicolon. -/
def replaceBsSemi : Str → Str
  | [] => []
  | [c] => [c]
  | a :: b :: rest =>
    if a = '\\' ∧ b = ';' then ';' :: replaceBsSemi rest
    else a :: replaceBsSemi (b :: rest)

/-- Fourth pass: double backslash to backslash. -/
def replaceBsBs : Str → Str
  | [] => []
  | [c] => [c]
  | a :: b :: rest =>
    if a = '\\' ∧ b = '\\' then '\\' :: replaceBsBs rest
    else a :: replaceBsBs (b :: rest)

/-- unescapeICalText: the source's four sequential global replaces, in
their order — backslash-n (case-insensitive) first, then backslash-comma,
backslash-semicolon, and double backslash last. -/
def unescapeICalText (s : Str) : Str :=
  replaceBsBs (replaceBsSemi (replaceBsComma (replaceBsN s)))

/-- formatDateTimeUTC: toISOString with dashes, colons and milliseconds
removed — the basic-format UTC timestamp with trailing Z.  Faithful for
instants whose year has four digits (before the year 10000). -/
def formatDateTimeUTC (t : Nat) : Str :=
  let p := epochToDateTime t
  pad4 p.year ++ pad2 p.month ++ pad2 p.day ++ 'T' ::
    (pad2 p.hour ++ pad2 p.minute ++ pad2 p.second) ++ ['Z']

/-- formatDateOnly: the local calendar date (getFullYear / getMonth + 1 /
getDate) of the instant, year unpadded (equal to its four digits for the
modelled years 1970–9999) and month/day zero-padded to two digits. -/
def formatDateOnly (tz : Int) (t : Nat) : Str :=
  let p := epochToDateTime ((t : Int) + tz).toNat
  Nat.toDigits 10 p.year ++ pad2 p.month ++ pad2 p.day

/-- The logical lines emitted by generateVEvent: fixed preamble, the
supplied-or-generated uid and a DTSTAMP, then SUMMARY when the summary is
truthy, DTSTART/DTEND when both times are truthy (date-only local form
when isAllDay, else UTC timestamps), DESCRIPTION and LOCATION when
truthy, and one RSVP attendee line per attendee when the field exists. -/
def genVEventLines (tz : Int) (e : VEventInput) (uid : Str) (now : Nat) : List Str :=
  [str "BEGIN:VCALENDAR", str "VERSION:2.0",
   str "PRODID:-//Velo Mail//CalDAV Client//EN", str "BEGIN:VEVENT",
   str "UID:" ++ uid, str "DTSTAMP:" ++ formatDateTimeUTC now]
  ++ (if truthyOptStr e.summary then
        [str "SUMMARY:" ++ escapeICalText (e.summary.getD [])] else [])
  ++ (match e.startTime, e.endTime with
      | some st, some et =>
        if e.isAllDay then
          [str "DTSTART;VALUE=DATE:" ++ formatDateOnly tz st,
           str "DTEND;VALUE=DATE:" ++ formatDateOnly tz et]
        else
          [str "DTSTART:" ++ formatDateTimeUTC st,
           str "DTEND:" ++ formatDateTimeUTC et]
      | _, _ => [])
  ++ (if truthyOptStr e.description then
        [str "DESCRIPTION:" ++ escapeICalText (e.description.getD [])] else [])
  ++ (if truthyOptStr e.location then
        [str "LOCATION:" ++ escapeICalText (e.location.getD [])] else [])
  ++ (match e.attendees with
      | some l => l.map (fun em => str "ATTENDEE;RSVP=TRUE:mailto:" ++ em)
      | none => [])
  ++ [str "END:VEVENT", str "END:VCALENDAR"]

/-- generateVEvent(event, uid): the CRLF-joined line list.  `uid` is the
supplied identifier (the source draws a random UUID when none is
supplied); `now` is the current time used for DTSTAMP; `tz` the local
offset used by formatDateOnly. -/
def generateVEvent (tz : Int) (e : VEventInput) (uid : Str) (now : Nat) : Str :=
  joinCRLF (genVEventLines tz e uid now)

/-- First replace of unfoldLines: drop every CRLF that is immediately
followed by a space or tab, together with that one whitespace character
(the RFC 5545 unfolding step), in one left-to-right scan. -/
def removeCRLFWS : Str → Str
  | [] => []
  | [a] => [a]
  | [a, b] => [a, b]
  | a :: b :: c :: rest =>
    if a = '\r' ∧ b = '\n' ∧ (c = ' ' ∨ c = '\t') then removeCRLFWS rest
    else a :: removeCRLFWS (b :: c :: rest)

/-- Second replace of unfoldLines: CRLF to LF. -/
def crlfToLF : Str → Str
  | [] => []
  | [a] => [a]
  | a :: b :: rest =>
    if a = '\r' ∧ b = '\n' then '\n' :: crlfToLF rest
    else a :: crlfToLF (b :: rest)

/-- Third replace of unfoldLines: every remaining bare CR to LF. -/
def crToLF (s : Str) : Str := s.map (fun c => if c = '\r' then '\n' else c)

/-- unfoldLines: unfold CRLF-plus-whitespace continuations, normalise
CRLF and bare CR to LF, split on LF and drop empty lines. -/
def unfoldLines (icalData : Str) : List Str :=
  (splitAll '\n' (crToLF (crlfToLF (removeCRLFWS icalData)))).filter
    (fun l => decide (l ≠ []))

/-- The first capture of a case-insensitive mailto:(.+) match: the text
after the first occurrence of "mailto:" when it is non-empty. -/
def matchMailto : Str → Option Str
  | [] => none
  | c :: rest =>
    if toLowerStr ((c :: rest).take 7) = str "mailto:" ∧ (c :: rest).drop 7 ≠ [] then
      some ((c :: rest).drop 7)
    else matchMailto rest

/-- The first capture of a case-insensitive KEY([^;]+) match: scan for the
key, then take the non-empty run up to the next semicolon; an empty run
means no match at that position and the scan continues. -/
def findKeyCapture (key : Str) : Str → Option Str
  | [] => none
  | c :: rest =>
    if toLowerStr ((c :: rest).take key.length) = key ∧
        ((c :: rest).drop key.length).takeWhile (fun x => decide (x ≠ ';')) ≠ [] then
      some (((c :: rest).drop key.length).takeWhile (fun x => decide (x ≠ ';')))
    else findKeyCapture key rest

/-- Strip one pair of surrounding double quotes (the CN replace). -/
def stripQuotes (s : Str) : Str :=
  match s with
  | '"' :: rest =>
    match rest.reverse with
    | '"' :: mid => mid.reverse
    | _ => s
  | _ => s

/-- The mutable locals of the parseVEvent property loop. -/
structure VFields where
  uid : Option Str
  summary : Option Str
  description : Option Str
  location : Option Str
  dtstart : Option Str
  dtend : Option Str
  status : Str
  organizerEmail : Option Str
  isAllDay : Bool
  attendees : List AttendeeData
deriving DecidableEq, Repr

/-- The loop locals before any line is processed. -/
def initFields : VFields :=
  { uid := none, summary := none, description := none, location := none,
    dtstart := none, dtend := none, status := str "confirmed",
    organizerEmail := none, isAllDay := false, attendees := [] }

/-- One iteration of the parseVEvent property loop: split the line on
its first colon (the value is everything after it, empty when there is
no colon), skip lines with an empty name part, upper-case the property
name (before the first semicolon) and the parameter string (after it),
and dispatch.  DTSTART latches isAllDay when its parameters contain
VALUE=DATE but not VALUE=DATE-TIME; ORGANIZER/ATTENDEE require a mailto
match, and attendee CN/PARTSTAT captures come from the unchanged
name-with-parameters part. -/
def lineStep (f : VFields) (line : Str) : VFields :=
  let nameWithParams := match splitFirst ':' line with
    | some p => p.1
    | none => line
  if nameWithParams = [] then f
  else
    let value := match splitFirst ':' line with
      | some p => p.2
      | none => []
    let propName := toUpperStr (match splitFirst ';' nameWithParams with
      | some p => p.1
      | none => nameWithParams)
    let params := toUpperStr (match splitFirst ';' nameWithParams with
      | some p => p.2
      | none => [])
    if propName = str "UID" then { f with uid := some value }
    else if propName = str "SUMMARY" then
      { f with summary := some (unescapeICalText value) }
    else if propName = str "DESCRIPTION" then
      { f with description := some (unescapeICalText value) }
    else if propName = str "LOCATION" then
      { f with location := some (unescapeICalText value) }
    else if propName = str "DTSTART" then
      { f with dtstart := some value,
               isAllDay := f.isAllDay ||
                 (containsSeg (str "VALUE=DATE") params &&
                  !containsSeg (str "VALUE=DATE-TIME") params) }
    else if propName = str "DTEND" then { f with dtend := some value }
    else if propName = str "STATUS" then { f with status := toLowerStr value }
    else if propName = str "ORGANIZER" then
      match matchMailto value with
      | some em => { f with organizerEmail := some em }
      | none => f
    else if propName = str "ATTENDEE" then
      match matchMailto value with
      | some em =>
        { f with attendees := f.attendees ++
            [{ email := em,
               displayName := (findKeyCapture (str "cn=") nameWithParams).map stripQuotes,
               responseStatus :=
                 (findKeyCapture (str "partstat=") nameWithParams).map toLowerStr }] }
      | none => f
    else f

/-- The loop locals after processing every unfolded line of a text. -/
def collectFields (text : Str) : VFields :=
  (unfoldLines text).foldl lineStep initFields

/-- Remove the first Z character (the replace("Z", "") of the source). -/
def removeFirstZ : Str → Str
  | [] => []
  | c :: rest => if c = 'Z' then rest else c :: removeFirstZ rest

/-- parseICalDateTime(value, isAllDay): with the all-day flag the value is
read as YYYYMMDD at midnight local time; otherwise as YYYYMMDDTHHMMSS
with an optional trailing Z — UTC with it, local time without it.  The
parseInt calls on the fixed substrings are modelled by the total digit
reader `readNat` (faithful for digit substrings, with `readNat [] = 0`
matching the || 0 fallback on seconds); inputs whose components are not
digits or are absent (a date-time value shorter than the HHMMSS layout
makes the unguarded parseInt calls yield NaN), or whose month is outside
1..12 or day is 0 (where JS Date arithmetic produces NaN or normalises
into a previous month), are outside the modelled range, as are years
before 1970. -/
def parseICalDateTime (value : Str) (isAllDay : Bool) (tz : Int) : Int :=
  if isAllDay then
    let y := readNat (value.take 4)
    let m := readNat ((value.drop 4).take 2)
    let d := readNat ((value.drop 6).take 2)
    ((86400 * dateToDays y m d : Nat) : Int) - tz
  else
    let isUTC := value.getLast? = some 'Z'
    let cleaned := removeFirstZ value
    let y := readNat (cleaned.take 4)
    let m := readNat ((cleaned.drop 4).take 2)
    let d := readNat ((cleaned.drop 6).take 2)
    let h := readNat ((cleaned.drop 9).take 2)
    let mi := readNat ((cleaned.drop 11).take 2)
    let s := readNat ((cleaned.drop 13).take 2)
    if isUTC then ((dateTimeToEpochN y m d h mi s : Nat) : Int)
    else ((dateTimeToEpochN y m d h mi s : Nat) : Int) - tz

/-- parseVEvent(icalData, href): unfold, run the property loop, then
assemble — a falsy (missing or empty) DTSTART gives start 0, a falsy
DTEND gives end = start + 3600, both times are parsed with the DTSTART
line's all-day flag, and the remote id falls back from the locator to
the UID to the freshly generated identifier `genId`. -/
def parseVEvent (tz : Int) (genId : Str) (text : Str)
    (href : Option Str) : CalendarEventData :=
  let f := collectFields text
  let startTime : Int :=
    if truthyOptStr f.dtstart then parseICalDateTime (f.dtstart.getD []) f.isAllDay tz
    else 0
  let endTime : Int :=
    if truthyOptStr f.dtend then parseICalDateTime (f.dtend.getD []) f.isAllDay tz
    else startTime + 3600
  { remoteEventId := match href with
      | some h => h
      | none => match f.uid with
        | some u => u
        | none => genId
    uid := f.uid
    etag := none
    summary := f.summary
    description := f.description
    location := f.location
    startTime := startTime
    endTime := endTime
    isAllDay := f.isAllDay
    status := f.status
    organizerEmail := f.organizerEmail
    attendeesJson := if f.attendees.isEmpty then none else some f.attendees
    htmlLink := none
    icalData := some text }
/-! ### The escaping round trip

Decoding an encoded text restores it exactly unless the original text
contains a backslash immediately followed by the letter n or N: there the
case-insensitive backslash-n pass of unescapeICalText consumes the
escaped backslash together with the following literal letter and yields a
line feed.  The proof tracks the encoded text through the four unescape
passes via the intermediate forms `esc1`, `esc2`, `esc3`. -/

/-- Does the text contain a backslash immediately followed by the letter
n or N? -/
def hasBsN : Str → Bool
  | [] => false
  | [_] => false
  | a :: b :: rest =>
    if a = '\\' ∧ (b = 'n' ∨ b = 'N') then true else hasBsN (b :: rest)

/-- The encoded text after the backslash-n pass: newlines literal again,
the other three escapes untouched. -/
def esc1 : Str → Str
  | [] => []
  | c :: rest =>
    if c = '\\' then '\\' :: '\\' :: esc1 rest
    else if c = ';' then '\\' :: ';' :: esc1 rest
    else if c = ',' then '\\' :: ',' :: esc1 rest
    else c :: esc1 rest

/-- After the backslash-comma pass: commas literal as well. -/
def esc2 : Str → Str
  | [] => []
  | c :: rest =>
    if c = '\\' then '\\' :: '\\' :: esc2 rest
    else if c = ';' then '\\' :: ';' :: esc2 rest
    else c :: esc2 rest

/-- After the backslash-semicolon pass: only backslashes still doubled. -/
def esc3 : Str → Str
  | [] => []
  | c :: rest =>
    if c = '\\' then '\\' :: '\\' :: esc3 rest
    else c :: esc3 rest

theorem hasBsN_cons_tail (c : Char) (rest : Str) (h : hasBsN (c :: rest) = false) :
    hasBsN rest = false := by
  cases rest with
  | nil => rfl
  | cons d r =>
    simp only [hasBsN] at h
    split at h
    · exact absurd h (by simp)
    · exact h

theorem hasBsN_bs_head (rest : Str) (h : hasBsN ('\\' :: rest) = false) :
    rest.head? ≠ some 'n' ∧ rest.head? ≠ some 'N' := by
  cases rest with
  | nil => simp
  | cons d r =>
    simp only [hasBsN] at h
    split at h
    · exact absurd h (by simp)
    · next hcond =>
      have hd : ¬(d = 'n' ∨ d = 'N') := fun hor => hcond ⟨by trivial, hor⟩
      push_neg at hd
      simp only [List.head?_cons, ne_eq, Option.some.injEq]
      exact hd

theorem replaceBsN_cons (c : Char) (u : Str) (hc : c ≠ '\\') :
    replaceBsN (c :: u) = c :: replaceBsN u := by
  cases u with
  | nil => rfl
  | cons d r => simp [replaceBsN, hc]

theorem replaceBsN_bs (u : Str) (h1 : u.head? ≠ some 'n') (h2 : u.head? ≠ some 'N') :
    replaceBsN ('\\' :: u) = '\\' :: replaceBsN u := by
  cases u with
  | nil => rfl
  | cons d r =>
    rw [List.head?_cons] at h1 h2
    simp only [ne_eq, Option.some.injEq] at h1 h2
    simp [replaceBsN, h1, h2]

theorem replaceBsComma_cons (c : Char) (u : Str) (hc : c ≠ '\\') :
    replaceBsComma (c :: u) = c :: replaceBsComma u := by
  cases u with
  | nil => rfl
  | cons d r => simp [replaceBsComma, hc]

theorem replaceBsComma_bs (u : Str) (h : u.head? ≠ some ',') :
    replaceBsComma ('\\' :: u) = '\\' :: replaceBsComma u := by
  cases u with
  | nil => rfl
  | cons d r =>
    rw [List.head?_cons] at h
    simp only [ne_eq, Option.some.injEq] at h
    simp [replaceBsComma, h]

theorem replaceBsSemi_cons (c : Char) (u : Str) (hc : c ≠ '\\') :
    replaceBsSemi (c :: u) = c :: replaceBsSemi u := by
  cases u with
  | nil => rfl
  | cons d r => simp [replaceBsSemi, hc]

theorem replaceBsSemi_bs (u : Str) (h : u.head? ≠ some ';') :
    replaceBsSemi ('\\' :: u) = '\\' :: replaceBsSemi u := by
  cases u with
  | nil => rfl
  | cons d r =>
    rw [List.head?_cons] at h
    simp only [ne_eq, Option.some.injEq] at h
    simp [replaceBsSemi, h]

theorem replaceBsBs_cons (c : Char) (u : Str) (hc : c ≠ '\\') :
    replaceBsBs (c :: u) = c :: replaceBsBs u := by
  cases u with
  | nil => rfl
  | cons d r => simp [replaceBsBs, hc]

theorem escape_head_ne (s : Str) (x : Char) (hx1 : x ≠ '\\')
    (hx2 : s.head? ≠ some x) : (escapeICalText s).head? ≠ some x := by
  cases s with
  | nil => simp [escapeICalText]
  | cons c rest =>
    rw [List.head?_cons] at hx2
    simp only [ne_eq, Option.some.injEq] at hx2
    simp only [escapeICalText]
    split_ifs <;> simp only [List.head?_cons, ne_eq, Option.some.injEq] <;> first
      | exact fun he => hx1 he.symm
      | exact fun he => hx2 he

theorem esc1_head_ne_comma (s : Str) : (esc1 s).head? ≠ some ',' := by
  cases s with
  | nil => simp [esc1]
  | cons c rest =>
    simp only [esc1]
    split_ifs with h1 h2 h3 <;>
      simp only [List.head?_cons, ne_eq, Option.some.injEq] <;>
      first
        | decide
        | exact fun he => h3 he

theorem esc2_head_ne_semi (s : Str) : (esc2 s).head? ≠ some ';' := by
  cases s with
  | nil => simp [esc2]
  | cons c rest =>
    simp only [esc2]
    split_ifs with h1 h2 <;>
      simp only [List.head?_cons, ne_eq, Option.some.injEq] <;>
      first
        | decide
        | exact fun he => h2 he

theorem replaceBsN_escape (s : Str) (h : hasBsN s = false) :
    replaceBsN (escapeICalText s) = esc1 s := by
  induction s with
  | nil => rfl
  | cons c rest ih =>
    have htail := hasBsN_cons_tail c rest h
    by_cases hbs : c = '\\'
    · subst hbs
      obtain ⟨h1, h2⟩ := hasBsN_bs_head rest h
      calc replaceBsN (escapeICalText ('\\' :: rest))
          = replaceBsN ('\\' :: '\\' :: escapeICalText rest) := by
            simp [escapeICalText]
        _ = '\\' :: replaceBsN ('\\' :: escapeICalText rest) := by
            simp [replaceBsN]
        _ = '\\' :: '\\' :: replaceBsN (escapeICalText rest) := by
            rw [replaceBsN_bs _ (escape_head_ne rest 'n' (by decide) h1)
              (escape_head_ne rest 'N' (by decide) h2)]
        _ = esc1 ('\\' :: rest) := by rw [ih htail]; simp [esc1]
    · by_cases hsemi : c = ';'
      · subst hsemi
        calc replaceBsN (escapeICalText (';' :: rest))
            = replaceBsN ('\\' :: ';' :: escapeICalText rest) := by
              simp [escapeICalText]
          _ = '\\' :: replaceBsN (';' :: escapeICalText rest) := by
              simp [replaceBsN]
          _ = '\\' :: ';' :: replaceBsN (escapeICalText rest) := by
              rw [replaceBsN_cons ';' _ (by decide)]
          _ = esc1 (';' :: rest) := by rw [ih htail]; simp [esc1]
      · by_cases hcomma : c = ','
        · subst hcomma
          calc replaceBsN (escapeICalText (',' :: rest))
              = replaceBsN ('\\' :: ',' :: escapeICalText rest) := by
                simp [escapeICalText]
            _ = '\\' :: replaceBsN (',' :: escapeICalText rest) := by
                simp [replaceBsN]
            _ = '\\' :: ',' :: replaceBsN (escapeICalText rest) := by
                rw [replaceBsN_cons ',' _ (by decide)]
            _ = esc1 (',' :: rest) := by rw [ih htail]; simp [esc1]
        · by_cases hlf : c = '\n'
          · subst hlf
            calc replaceBsN (escapeICalText ('\n' :: rest))
                = replaceBsN ('\\' :: 'n' :: escapeICalText rest) := by
                  simp [escapeICalText]
              _ = '\n' :: replaceBsN (escapeICalText rest) := by
                  simp [replaceBsN]
              _ = esc1 ('\n' :: rest) := by rw [ih htail]; simp [esc1]
          · calc replaceBsN (escapeICalText (c :: rest))
                = replaceBsN (c :: escapeICalText rest) := by
                  simp [escapeICalText, hbs, hsemi, hcomma, hlf]
              _ = c :: replaceBsN (escapeICalText rest) := by
                  rw [replaceBsN_cons c _ hbs]
              _ = esc1 (c :: rest) := by
                  rw [ih htail]; simp [esc1, hbs, hsemi, hcomma]
theorem replaceBsComma_esc1 (s : Str) : replaceBsComma (esc1 s) = esc2 s := by
  induction s with
  | nil => rfl
  | cons c rest ih =>
    by_cases hbs : c = '\\'
    · subst hbs
      calc replaceBsComma (esc1 ('\\' :: rest))
          = replaceBsComma ('\\' :: '\\' :: esc1 rest) := by simp [esc1]
        _ = '\\' :: replaceBsComma ('\\' :: esc1 rest) := by simp [replaceBsComma]
        _ = '\\' :: '\\' :: replaceBsComma (esc1 rest) := by
            rw [replaceBsComma_bs _ (esc1_head_ne_comma rest)]
        _ = esc2 ('\\' :: rest) := by rw [ih]; simp [esc2]
    · by_cases hsemi : c = ';'
      · subst hsemi
        calc replaceBsComma (esc1 (';' :: rest))
            = replaceBsComma ('\\' :: ';' :: esc1 rest) := by simp [esc1]
          _ = '\\' :: replaceBsComma (';' :: esc1 rest) := by simp [replaceBsComma]
          _ = '\\' :: ';' :: replaceBsComma (esc1 rest) := by
              rw [replaceBsComma_cons ';' _ (by decide)]
          _ = esc2 (';' :: rest) := by rw [ih]; simp [esc2]
      · by_cases hcomma : c = ','
        · subst hcomma
          calc replaceBsComma (esc1 (',' :: rest))
              = replaceBsComma ('\\' :: ',' :: esc1 rest) := by simp [esc1]
            _ = ',' :: replaceBsComma (esc1 rest) := by simp [replaceBsComma]
            _ = esc2 (',' :: rest) := by rw [ih]; simp [esc2]
        · calc replaceBsComma (esc1 (c :: rest))
              = replaceBsComma (c :: esc1 rest) := by
                simp [esc1, hbs, hsemi, hcomma]
            _ = c :: replaceBsComma (esc1 rest) := by
                rw [replaceBsComma_cons c _ hbs]
            _ = esc2 (c :: rest) := by rw [ih]; simp [esc2, hbs, hsemi]

theorem replaceBsSemi_esc2 (s : Str) : replaceBsSemi (esc2 s) = esc3 s := by
  induction s with
  | nil => rfl
  | cons c rest ih =>
    by_cases hbs : c = '\\'
    · subst hbs
      calc replaceBsSemi (esc2 ('\\' :: rest))
          = replaceBsSemi ('\\' :: '\\' :: esc2 rest) := by simp [esc2]
        _ = '\\' :: replaceBsSemi ('\\' :: esc2 rest) := by simp [replaceBsSemi]
        _ = '\\' :: '\\' :: replaceBsSemi (esc2 rest) := by
            rw [replaceBsSemi_bs _ (esc2_head_ne_semi rest)]
        _ = esc3 ('\\' :: rest) := by rw [ih]; simp [esc3]
    · by_cases hsemi : c = ';'
      · subst hsemi
        calc replaceBsSemi (esc2 (';' :: rest))
            = replaceBsSemi ('\\' :: ';' :: esc2 rest) := by simp [esc2]
          _ = ';' :: replaceBsSemi (esc2 rest) := by simp [replaceBsSemi]
          _ = esc3 (';' :: rest) := by rw [ih]; simp [esc3]
      · calc replaceBsSemi (esc2 (c :: rest))
            = replaceBsSemi (c :: esc2 rest) := by simp [esc2, hbs, hsemi]
          _ = c :: replaceBsSemi (esc2 rest) := by
              rw [replaceBsSemi_cons c _ hbs]
          _ = esc3 (c :: rest) := by rw [ih]; simp [esc3, hbs]

theorem replaceBsBs_esc3 (s : Str) : replaceBsBs (esc3 s) = s := by
  induction s with
  | nil => rfl
  | cons c rest ih =>
    by_cases hbs : c = '\\'
    · subst hbs
      calc replaceBsBs (esc3 ('\\' :: rest))
          = replaceBsBs ('\\' :: '\\' :: esc3 rest) := by simp [esc3]
        _ = '\\' :: replaceBsBs (esc3 rest) := by simp [replaceBsBs]
        _ = '\\' :: rest := by rw [ih]
    · calc replaceBsBs (esc3 (c :: rest))
          = replaceBsBs (c :: esc3 rest) := by simp [esc3, hbs]
        _ = c :: replaceBsBs (esc3 rest) := by rw [replaceBsBs_cons c _ hbs]
        _ = c :: rest := by rw [ih]

/-- Decoding an encoded text restores it exactly when the original
contains no backslash immediately followed by the letter n or N. -/
theorem unescape_escape (s : Str) (h : hasBsN s = false) :
    unescapeICalText (escapeICalText s) = s := by
  unfold unescapeICalText
  rw [replaceBsN_escape s h, replaceBsComma_esc1, replaceBsSemi_esc2,
    replaceBsBs_esc3]

/-- The encoder never emits a line feed: original newlines become the
two-character backslash-n escape. -/
theorem escape_no_LF (s : Str) : '\n' ∉ escapeICalText s := by
  induction s with
  | nil => simp [escapeICalText]
  | cons c rest ih =>
    simp only [escapeICalText]
    split_ifs with h1 h2 h3 h4 <;>
      simp only [List.mem_cons] <;>
      push_neg
    · exact ⟨by decide, by decide, ih⟩
    · exact ⟨by decide, by decide, ih⟩
    · exact ⟨by decide, by decide, ih⟩
    · exact ⟨by decide, by decide, ih⟩
    · exact ⟨fun he => h4 he.symm, ih⟩

/-- The encoder introduces no carriage return. -/
theorem escape_no_CR (s : Str) (h : '\r' ∉ s) : '\r' ∉ escapeICalText s := by
  induction s with
  | nil => simp [escapeICalText]
  | cons c rest ih =>
    have hc : '\r' ≠ c := fun he => h (by rw [← he]; exact List.mem_cons_self _ _)
    have hrest : '\r' ∉ rest := fun hm => h (List.mem_cons_of_mem _ hm)
    simp only [escapeICalText]
    split_ifs with h1 h2 h3 h4 <;>
      simp only [List.mem_cons] <;>
      push_neg
    · exact ⟨by decide, by decide, ih hrest⟩
    · exact ⟨by decide, by decide, ih hrest⟩
    · exact ⟨by decide, by decide, ih hrest⟩
    · exact ⟨by decide, by decide, ih hrest⟩
    · exact ⟨hc, ih hrest⟩

/-- The encoder of a non-empty text is non-empty. -/
theorem escape_ne_nil (s : Str) (h : s ≠ []) : escapeICalText s ≠ [] := by
  cases s with
  | nil => exact absurd rfl h
  | cons c rest =>
    simp only [escapeICalText]
    split_ifs <;> simp
/-! ### Unfolding laws

Only a CRLF followed by a space or tab is a continuation; a bare LF or a
bare CR acts as a line break.  The lemmas below invert the unfold
pipeline on CRLF-joined well-formed lines. -/

theorem removeCRLFWS_cons (c : Char) (u : Str) (hc : c ≠ '\r') :
    removeCRLFWS (c :: u) = c :: removeCRLFWS u := by
  match u with
  | [] => rfl
  | [d] => rfl
  | d :: e :: u' => simp [removeCRLFWS, hc]

theorem removeCRLFWS_append (p q : Str) (h : '\r' ∉ p) :
    removeCRLFWS (p ++ q) = p ++ removeCRLFWS q := by
  induction p with
  | nil => rfl
  | cons c p' ih =>
    have hc : c ≠ '\r' := fun he => h (by rw [he]; exact List.mem_cons_self _ _)
    have hp : '\r' ∉ p' := fun hm => h (List.mem_cons_of_mem _ hm)
    rw [List.cons_append, removeCRLFWS_cons c _ hc, ih hp, List.cons_append]

theorem removeCRLFWS_id (s : Str) (h : '\r' ∉ s) : removeCRLFWS s = s := by
  have := removeCRLFWS_append s [] h
  simpa [removeCRLFWS] using this

theorem removeCRLFWS_crlf_ws (c : Char) (q : Str) (hc : c = ' ' ∨ c = '\t') :
    removeCRLFWS ('\r' :: '\n' :: c :: q) = removeCRLFWS q := by
  simp [removeCRLFWS, hc]

theorem removeCRLFWS_crlf (c : Char) (q : Str) (hc1 : c ≠ ' ') (hc2 : c ≠ '\t') :
    removeCRLFWS ('\r' :: '\n' :: c :: q) =
      '\r' :: '\n' :: removeCRLFWS (c :: q) := by
  rw [show removeCRLFWS ('\r' :: '\n' :: c :: q) =
      '\r' :: removeCRLFWS ('\n' :: c :: q) from by simp [removeCRLFWS, hc1, hc2]]
  rw [removeCRLFWS_cons '\n' _ (by decide)]

theorem crlfToLF_cons (c : Char) (u : Str) (hc : c ≠ '\r') :
    crlfToLF (c :: u) = c :: crlfToLF u := by
  match u with
  | [] => rfl
  | d :: u' => simp [crlfToLF, hc]

theorem crlfToLF_append (p q : Str) (h : '\r' ∉ p) :
    crlfToLF (p ++ q) = p ++ crlfToLF q := by
  induction p with
  | nil => rfl
  | cons c p' ih =>
    have hc : c ≠ '\r' := fun he => h (by rw [he]; exact List.mem_cons_self _ _)
    have hp : '\r' ∉ p' := fun hm => h (List.mem_cons_of_mem _ hm)
    rw [List.cons_append, crlfToLF_cons c _ hc, ih hp, List.cons_append]

theorem crlfToLF_crlf (q : Str) : crlfToLF ('\r' :: '\n' :: q) = '\n' :: crlfToLF q := by
  simp [crlfToLF]

theorem crToLF_id (s : Str) (h : '\r' ∉ s) : crToLF s = s := by
  unfold crToLF
  induction s with
  | nil => rfl
  | cons c rest ih =>
    have hc : c ≠ '\r' := fun he => h (by rw [he]; exact List.mem_cons_self _ _)
    have hp : '\r' ∉ rest := fun hm => h (List.mem_cons_of_mem _ hm)
    simp only [List.map_cons, if_neg hc, ih hp]

theorem splitAll_no_sep (sep : Char) (s : Str) (h : sep ∉ s) :
    splitAll sep s = [s] := by
  induction s with
  | nil => rfl
  | cons c rest ih =>
    have hc : c ≠ sep := fun he => h (by rw [← he]; exact List.mem_cons_self _ _)
    have hp : sep ∉ rest := fun hm => h (List.mem_cons_of_mem _ hm)
    simp [splitAll, hc, ih hp]

theorem splitAll_append_sep (sep : Char) (a b : Str) (h : sep ∉ a) :
    splitAll sep (a ++ sep :: b) = a :: splitAll sep b := by
  induction a with
  | nil => simp [splitAll]
  | cons c a' ih =>
    have hc : c ≠ sep := fun he => h (by rw [← he]; exact List.mem_cons_self _ _)
    have hp : sep ∉ a' := fun hm => h (List.mem_cons_of_mem _ hm)
    simp [splitAll, hc, ih hp]

/-- LF-joined lines, the shape of the text after the CRLF normalisation. -/
def joinLF : List Str → Str
  | [] => []
  | [l] => l
  | l :: rest => l ++ '\n' :: joinLF rest

theorem joinLF_no_cr (ls : List Str) (h : ∀ l ∈ ls, '\r' ∉ l) :
    '\r' ∉ joinLF ls := by
  match ls with
  | [] => simp [joinLF]
  | [l] => simpa [joinLF] using h l (by simp)
  | l :: l2 :: rest =>
    have h1 := h l (by simp)
    have h2 := joinLF_no_cr (l2 :: rest) (fun x hx => h x (List.mem_cons_of_mem _ hx))
    simp only [joinLF, List.mem_append, List.mem_cons]
    rintro (hm | hm | hm)
    · exact h1 hm
    · exact absurd hm (by decide)
    · exact h2 hm

theorem removeCRLFWS_joinCRLF (ls : List Str)
    (h : ∀ l ∈ ls, l ≠ [] ∧ '\r' ∉ l ∧ l.head? ≠ some ' ' ∧ l.head? ≠ some '\t') :
    removeCRLFWS (joinCRLF ls) = joinCRLF ls := by
  match ls with
  | [] => rfl
  | [l] =>
    obtain ⟨-, hcr, -, -⟩ := h l (by simp)
    simpa [joinCRLF] using removeCRLFWS_id l hcr
  | l :: l2 :: rest =>
    obtain ⟨-, hcr, -, -⟩ := h l (by simp)
    obtain ⟨hne2, -, hsp2, htb2⟩ := h l2 (by simp)
    have ihr := removeCRLFWS_joinCRLF (l2 :: rest)
      (fun x hx => h x (List.mem_cons_of_mem _ hx))
    obtain ⟨c, l2', rfl⟩ : ∃ c l2', l2 = c :: l2' := by
      cases l2 with
      | nil => exact absurd rfl hne2
      | cons c l2' => exact ⟨c, l2', rfl⟩
    rw [List.head?_cons] at hsp2 htb2
    have hcsp : c ≠ ' ' := fun he => hsp2 (by rw [he])
    have hctb : c ≠ '\t' := fun he => htb2 (by rw [he])
    obtain ⟨w, hw⟩ : ∃ w, joinCRLF ((c :: l2') :: rest) = c :: w := by
      cases rest with
      | nil => exact ⟨l2', rfl⟩
      | cons l3 rest' => exact ⟨l2' ++ '\r' :: '\n' :: joinCRLF (l3 :: rest'), rfl⟩
    calc removeCRLFWS (joinCRLF (l :: (c :: l2') :: rest))
        = removeCRLFWS (l ++ '\r' :: '\n' :: joinCRLF ((c :: l2') :: rest)) := by
          simp [joinCRLF]
      _ = l ++ removeCRLFWS ('\r' :: '\n' :: c :: w) := by
          rw [removeCRLFWS_append _ _ hcr, hw]
      _ = l ++ '\r' :: '\n' :: removeCRLFWS (c :: w) := by
          rw [removeCRLFWS_crlf c w hcsp hctb]
      _ = l ++ '\r' :: '\n' :: joinCRLF ((c :: l2') :: rest) := by
          rw [← hw, ihr]
      _ = joinCRLF (l :: (c :: l2') :: rest) := by simp [joinCRLF]

theorem crlfToLF_joinCRLF (ls : List Str) (h : ∀ l ∈ ls, '\r' ∉ l) :
    crlfToLF (joinCRLF ls) = joinLF ls := by
  match ls with
  | [] => rfl
  | [l] =>
    have hcr := h l (by simp)
    have := crlfToLF_append l [] hcr
    simpa [joinCRLF, joinLF, crlfToLF] using this
  | l :: l2 :: rest =>
    have hcr := h l (by simp)
    have ihr := crlfToLF_joinCRLF (l2 :: rest)
      (fun x hx => h x (List.mem_cons_of_mem _ hx))
    calc crlfToLF (joinCRLF (l :: l2 :: rest))
        = crlfToLF (l ++ '\r' :: '\n' :: joinCRLF (l2 :: rest)) := by
          simp [joinCRLF]
      _ = l ++ '\n' :: crlfToLF (joinCRLF (l2 :: rest)) := by
          rw [crlfToLF_append _ _ hcr, crlfToLF_crlf]
      _ = joinLF (l :: l2 :: rest) := by rw [ihr]; simp [joinLF]

theorem splitAll_joinLF (ls : List Str) (hne : ls ≠ [])
    (h : ∀ l ∈ ls, '\n' ∉ l) :
    splitAll '\n' (joinLF ls) = ls := by
  match ls with
  | [] => exact absurd rfl hne
  | [l] =>
    have := h l (by simp)
    simpa [joinLF] using splitAll_no_sep '\n' l this
  | l :: l2 :: rest =>
    have h1 := h l (by simp)
    have ihr := splitAll_joinLF (l2 :: rest) (by simp)
      (fun x hx => h x (List.mem_cons_of_mem _ hx))
    calc splitAll '\n' (joinLF (l :: l2 :: rest))
        = splitAll '\n' (l ++ '\n' :: joinLF (l2 :: rest)) := by simp [joinLF]
      _ = l :: splitAll '\n' (joinLF (l2 :: rest)) := splitAll_append_sep '\n' _ _ h1
      _ = l :: l2 :: rest := by rw [ihr]

/-- On CRLF-joined lines that are non-empty, free of CR and LF, and do
not begin with a space or tab, unfoldLines is the exact inverse of
joinCRLF. -/
theorem unfold_joinCRLF (ls : List Str)
    (h : ∀ l ∈ ls, l ≠ [] ∧ '\r' ∉ l ∧ '\n' ∉ l ∧
      l.head? ≠ some ' ' ∧ l.head? ≠ some '\t') :
    unfoldLines (joinCRLF ls) = ls := by
  cases ls with
  | nil => rfl
  | cons l0 rest =>
    unfold unfoldLines
    rw [removeCRLFWS_joinCRLF _ (fun x hx => by
        obtain ⟨a, b, -, c, d⟩ := h x hx; exact ⟨a, b, c, d⟩),
      crlfToLF_joinCRLF _ (fun x hx => (h x hx).2.1),
      crToLF_id _ (joinLF_no_cr _ (fun x hx => (h x hx).2.1)),
      splitAll_joinLF _ (by simp) (fun x hx => (h x hx).2.2.1)]
    rw [List.filter_eq_self]
    intro a ha
    exact decide_eq_true (h a ha).1

/-- A CRLF immediately followed by a space or tab is removed together
with that whitespace character before line splitting: texts equal up to
such a continuation unfold to the same lines (the scan requires no
carriage return earlier in the text). -/
theorem unfoldLines_continuation (p q : Str) (c : Char) (hp : '\r' ∉ p)
    (hc : c = ' ' ∨ c = '\t') :
    unfoldLines (p ++ '\r' :: '\n' :: c :: q) = unfoldLines (p ++ q) := by
  unfold unfoldLines
  rw [removeCRLFWS_append _ _ hp, removeCRLFWS_crlf_ws c q hc,
    removeCRLFWS_append _ _ hp]
/-! ### Year bound for four-digit formatting

formatDateTimeUTC is the inverse-ready four-digit stamp only while the
year stays below 10000, i.e. for instants before 253402300800. -/

theorem yearsSpanN_add (a : Nat) : ∀ y0 b,
    yearsSpanN y0 (a + b) = yearsSpanN y0 a + yearsSpanN (y0 + a) b := by
  induction a with
  | zero => intro y0 b; simp [yearsSpanN]
  | succ n ih =>
    intro y0 b
    have h1 : n + 1 + b = (n + b) + 1 := by omega
    rw [h1]
    have h2 : yearsSpanN y0 ((n + b) + 1) = daysInYear y0 + yearsSpanN (y0 + 1) (n + b) := rfl
    have h3 : yearsSpanN y0 (n + 1) = daysInYear y0 + yearsSpanN (y0 + 1) n := rfl
    rw [h2, h3, ih (y0 + 1) b]
    have h4 : y0 + 1 + n = y0 + (n + 1) := by omega
    rw [h4]
    omega

set_option maxRecDepth 100000 in
theorem span_1970_8030 : yearsSpanN 1970 8030 = 2932897 := by
  have c1 : yearsSpanN 1970 1000 = 365243 := by decide
  have c2 : yearsSpanN 2970 1000 = 365242 := by decide
  have c3 : yearsSpanN 3970 1000 = 365243 := by decide
  have c4 : yearsSpanN 4970 1000 = 365242 := by decide
  have c5 : yearsSpanN 5970 1000 = 365243 := by decide
  have c6 : yearsSpanN 6970 1000 = 365242 := by decide
  have c7 : yearsSpanN 7970 1000 = 365243 := by decide
  have c8 : yearsSpanN 8970 1000 = 365242 := by decide
  have c9 : yearsSpanN 9970 30 = 10957 := by decide
  have h1 := yearsSpanN_add 1000 1970 7030
  have h2 := yearsSpanN_add 1000 2970 6030
  have h3 := yearsSpanN_add 1000 3970 5030
  have h4 := yearsSpanN_add 1000 4970 4030
  have h5 := yearsSpanN_add 1000 5970 3030
  have h6 := yearsSpanN_add 1000 6970 2030
  have h7 := yearsSpanN_add 1000 7970 1030
  have h8 := yearsSpanN_add 1000 8970 30
  norm_num at h1 h2 h3 h4 h5 h6 h7 h8
  omega

theorem epochToDateTime_year_lt (t : Nat) (h : t < 253402300800) :
    (epochToDateTime t).year < 10000 := by
  obtain ⟨k, hk, hle, -⟩ := yearFromDays_spec (t / 86400)
  have hdays : t / 86400 < 2932897 := by omega
  have hy : (epochToDateTime t).year = 1970 + k := by
    unfold epochToDateTime epochToDate
    simp only
    rw [hk]
  rw [hy]
  by_contra hge
  push_neg at hge
  have hk8030 : 8030 ≤ k := by omega
  have hsplit : yearsSpanN 1970 k =
      yearsSpanN 1970 8030 + yearsSpanN 10000 (k - 8030) := by
    have h2 := yearsSpanN_add 8030 1970 (k - 8030)
    rw [show 8030 + (k - 8030) = k from by omega] at h2
    norm_num at h2
    exact h2
  have hval := span_1970_8030
  omega
/-! ### Reading back formatted date-times -/

theorem removeFirstZ_append (a b : Str) (h : 'Z' ∉ a) :
    removeFirstZ (a ++ 'Z' :: b) = a ++ b := by
  induction a with
  | nil => simp [removeFirstZ]
  | cons c a' ih =>
    have hc : c ≠ 'Z' := fun he => h (by rw [he]; exact List.mem_cons_self _ _)
    have ha : 'Z' ∉ a' := fun hm => h (List.mem_cons_of_mem _ hm)
    simp [removeFirstZ, hc, ih ha]

theorem removeFirstZ_id (s : Str) (h : 'Z' ∉ s) : removeFirstZ s = s := by
  induction s with
  | nil => rfl
  | cons c s' ih =>
    have hc : c ≠ 'Z' := fun he => h (by rw [he]; exact List.mem_cons_self _ _)
    have hs : 'Z' ∉ s' := fun hm => h (List.mem_cons_of_mem _ hm)
    simp [removeFirstZ, hc, ih hs]

/-- Parsing a formatted UTC stamp (with trailing Z) recovers the
broken-down components through dateTimeToEpochN, independent of tz. -/
theorem parseICalDateTime_stamp (y mo d h mi s : Nat) (tz : Int)
    (hy : y < 10000) (hmo : mo < 100) (hd : d < 100) (hh : h < 100)
    (hmi : mi < 100) (hs : s < 100) :
    parseICalDateTime
      (pad4 y ++ pad2 mo ++ pad2 d ++ 'T' :: (pad2 h ++ pad2 mi ++ pad2 s) ++ ['Z'])
      false tz = ((dateTimeToEpochN y mo d h mi s : Nat) : Int) := by
  have hflat : (pad4 y ++ pad2 mo ++ pad2 d ++
      'T' :: (pad2 h ++ pad2 mi ++ pad2 s) ++ ['Z'] : Str) =
      [digitChar (y / 1000 % 10), digitChar (y / 100 % 10), digitChar (y / 10 % 10),
       digitChar (y % 10), digitChar (mo / 10 % 10), digitChar (mo % 10),
       digitChar (d / 10 % 10), digitChar (d % 10), 'T',
       digitChar (h / 10 % 10), digitChar (h % 10),
       digitChar (mi / 10 % 10), digitChar (mi % 10),
       digitChar (s / 10 % 10), digitChar (s % 10), 'Z'] := rfl
  have hnoZ : 'Z' ∉
      ([digitChar (y / 1000 % 10), digitChar (y / 100 % 10), digitChar (y / 10 % 10),
        digitChar (y % 10), digitChar (mo / 10 % 10), digitChar (mo % 10),
        digitChar (d / 10 % 10), digitChar (d % 10), 'T',
        digitChar (h / 10 % 10), digitChar (h % 10),
        digitChar (mi / 10 % 10), digitChar (mi % 10),
        digitChar (s / 10 % 10), digitChar (s % 10)] : Str) := by
    simp only [List.mem_cons, List.not_mem_nil, or_false]
    push_neg
    refine ⟨?_, ?_, ?_, ?_, ?_, ?_, ?_, ?_, ?_, ?_, ?_, ?_, ?_, ?_, ?_⟩ <;>
      first
        | exact fun he => digitChar_ne_Z _ he.symm
        | decide
  have hclean : removeFirstZ
      [digitChar (y / 1000 % 10), digitChar (y / 100 % 10), digitChar (y / 10 % 10),
       digitChar (y % 10), digitChar (mo / 10 % 10), digitChar (mo % 10),
       digitChar (d / 10 % 10), digitChar (d % 10), 'T',
       digitChar (h / 10 % 10), digitChar (h % 10),
       digitChar (mi / 10 % 10), digitChar (mi % 10),
       digitChar (s / 10 % 10), digitChar (s % 10), 'Z'] =
      [digitChar (y / 1000 % 10), digitChar (y / 100 % 10), digitChar (y / 10 % 10),
       digitChar (y % 10), digitChar (mo / 10 % 10), digitChar (mo % 10),
       digitChar (d / 10 % 10), digitChar (d % 10), 'T',
       digitChar (h / 10 % 10), digitChar (h % 10),
       digitChar (mi / 10 % 10), digitChar (mi % 10),
       digitChar (s / 10 % 10), digitChar (s % 10)] := by
    have h2 := removeFirstZ_append _ [] hnoZ
    simpa using h2
  rw [hflat]
  unfold parseICalDateTime
  simp only [Bool.false_eq_true, if_false, hclean]
  rw [if_pos (show ([digitChar (y / 1000 % 10), digitChar (y / 100 % 10), digitChar (y / 10 % 10),
       digitChar (y % 10), digitChar (mo / 10 % 10), digitChar (mo % 10),
       digitChar (d / 10 % 10), digitChar (d % 10), 'T',
       digitChar (h / 10 % 10), digitChar (h % 10),
       digitChar (mi / 10 % 10), digitChar (mi % 10),
       digitChar (s / 10 % 10), digitChar (s % 10), 'Z'] : Str).getLast? = some 'Z' from rfl)]
  have e1 : readNat (([digitChar (y / 1000 % 10), digitChar (y / 100 % 10),
      digitChar (y / 10 % 10), digitChar (y % 10), digitChar (mo / 10 % 10),
      digitChar (mo % 10), digitChar (d / 10 % 10), digitChar (d % 10), 'T',
      digitChar (h / 10 % 10), digitChar (h % 10), digitChar (mi / 10 % 10),
      digitChar (mi % 10), digitChar (s / 10 % 10), digitChar (s % 10)] : Str).take 4)
      = y := readNat_pad4 y hy
  have e2 : readNat ((([digitChar (y / 1000 % 10), digitChar (y / 100 % 10),
      digitChar (y / 10 % 10), digitChar (y % 10), digitChar (mo / 10 % 10),
      digitChar (mo % 10), digitChar (d / 10 % 10), digitChar (d % 10), 'T',
      digitChar (h / 10 % 10), digitChar (h % 10), digitChar (mi / 10 % 10),
      digitChar (mi % 10), digitChar (s / 10 % 10), digitChar (s % 10)] : Str).drop 4).take 2)
      = mo := readNat_pad2 mo hmo
  have e3 : readNat ((([digitChar (y / 1000 % 10), digitChar (y / 100 % 10),
      digitChar (y / 10 % 10), digitChar (y % 10), digitChar (mo / 10 % 10),
      digitChar (mo % 10), digitChar (d / 10 % 10), digitChar (d % 10), 'T',
      digitChar (h / 10 % 10), digitChar (h % 10), digitChar (mi / 10 % 10),
      digitChar (mi % 10), digitChar (s / 10 % 10), digitChar (s % 10)] : Str).drop 6).take 2)
      = d := readNat_pad2 d hd
  have e4 : readNat ((([digitChar (y / 1000 % 10), digitChar (y / 100 % 10),
      digitChar (y / 10 % 10), digitChar (y % 10), digitChar (mo / 10 % 10),
      digitChar (mo % 10), digitChar (d / 10 % 10), digitChar (d % 10), 'T',
      digitChar (h / 10 % 10), digitChar (h % 10), digitChar (mi / 10 % 10),
      digitChar (mi % 10), digitChar (s / 10 % 10), digitChar (s % 10)] : Str).drop 9).take 2)
      = h := readNat_pad2 h hh
  have e5 : readNat ((([digitChar (y / 1000 % 10), digitChar (y / 100 % 10),
      digitChar (y / 10 % 10), digitChar (y % 10), digitChar (mo / 10 % 10),
      digitChar (mo % 10), digitChar (d / 10 % 10), digitChar (d % 10), 'T',
      digitChar (h / 10 % 10), digitChar (h % 10), digitChar (mi / 10 % 10),
      digitChar (mi % 10), digitChar (s / 10 % 10), digitChar (s % 10)] : Str).drop 11).take 2)
      = mi := readNat_pad2 mi hmi
  have e6 : readNat ((([digitChar (y / 1000 % 10), digitChar (y / 100 % 10),
      digitChar (y / 10 % 10), digitChar (y % 10), digitChar (mo / 10 % 10),
      digitChar (mo % 10), digitChar (d / 10 % 10), digitChar (d % 10), 'T',
      digitChar (h / 10 % 10), digitChar (h % 10), digitChar (mi / 10 % 10),
      digitChar (mi % 10), digitChar (s / 10 % 10), digitChar (s % 10)] : Str).drop 13).take 2)
      = s := readNat_pad2 s hs
  simp only [e1, e2, e3, e4, e5, e6]
/-- Parsing a formatted stamp without the trailing Z reads it as local
time: the result is shifted west by the timezone offset. -/
theorem parseICalDateTime_stamp_local (y mo d h mi s : Nat) (tz : Int)
    (hy : y < 10000) (hmo : mo < 100) (hd : d < 100) (hh : h < 100)
    (hmi : mi < 100) (hs : s < 100) :
    parseICalDateTime
      (pad4 y ++ pad2 mo ++ pad2 d ++ 'T' :: (pad2 h ++ pad2 mi ++ pad2 s))
      false tz = ((dateTimeToEpochN y mo d h mi s : Nat) : Int) - tz := by
  have hflat : (pad4 y ++ pad2 mo ++ pad2 d ++
      'T' :: (pad2 h ++ pad2 mi ++ pad2 s) : Str) =
      [digitChar (y / 1000 % 10), digitChar (y / 100 % 10), digitChar (y / 10 % 10),
       digitChar (y % 10), digitChar (mo / 10 % 10), digitChar (mo % 10),
       digitChar (d / 10 % 10), digitChar (d % 10), 'T',
       digitChar (h / 10 % 10), digitChar (h % 10),
       digitChar (mi / 10 % 10), digitChar (mi % 10),
       digitChar (s / 10 % 10), digitChar (s % 10)] := rfl
  have hnoZ : 'Z' ∉ ([digitChar (y / 1000 % 10), digitChar (y / 100 % 10), digitChar (y / 10 % 10),
       digitChar (y % 10), digitChar (mo / 10 % 10), digitChar (mo % 10),
       digitChar (d / 10 % 10), digitChar (d % 10), 'T',
       digitChar (h / 10 % 10), digitChar (h % 10),
       digitChar (mi / 10 % 10), digitChar (mi % 10),
       digitChar (s / 10 % 10), digitChar (s % 10)] : Str) := by
    simp only [List.mem_cons, List.not_mem_nil, or_false]
    push_neg
    refine ⟨?_, ?_, ?_, ?_, ?_, ?_, ?_, ?_, ?_, ?_, ?_, ?_, ?_, ?_, ?_⟩ <;>
      first
        | exact fun he => digitChar_ne_Z _ he.symm
        | decide
  have hclean : removeFirstZ ([digitChar (y / 1000 % 10), digitChar (y / 100 % 10), digitChar (y / 10 % 10),
       digitChar (y % 10), digitChar (mo / 10 % 10), digitChar (mo % 10),
       digitChar (d / 10 % 10), digitChar (d % 10), 'T',
       digitChar (h / 10 % 10), digitChar (h % 10),
       digitChar (mi / 10 % 10), digitChar (mi % 10),
       digitChar (s / 10 % 10), digitChar (s % 10)] : Str) = [digitChar (y / 1000 % 10), digitChar (y / 100 % 10), digitChar (y / 10 % 10),
       digitChar (y % 10), digitChar (mo / 10 % 10), digitChar (mo % 10),
       digitChar (d / 10 % 10), digitChar (d % 10), 'T',
       digitChar (h / 10 % 10), digitChar (h % 10),
       digitChar (mi / 10 % 10), digitChar (mi % 10),
       digitChar (s / 10 % 10), digitChar (s % 10)] :=
    removeFirstZ_id _ hnoZ
  rw [hflat]
  unfold parseICalDateTime
  simp only [Bool.false_eq_true, if_false, hclean]
  rw [if_neg (show ¬(([digitChar (y / 1000 % 10), digitChar (y / 100 % 10), digitChar (y / 10 % 10),
       digitChar (y % 10), digitChar (mo / 10 % 10), digitChar (mo % 10),
       digitChar (d / 10 % 10), digitChar (d % 10), 'T',
       digitChar (h / 10 % 10), digitChar (h % 10),
       digitChar (mi / 10 % 10), digitChar (mi % 10),
       digitChar (s / 10 % 10), digitChar (s % 10)] : Str).getLast? = some 'Z') from
    fun he => digitChar_ne_Z (s % 10) (Option.some.inj he))]
  have e1 : readNat (([digitChar (y / 1000 % 10), digitChar (y / 100 % 10), digitChar (y / 10 % 10),
       digitChar (y % 10), digitChar (mo / 10 % 10), digitChar (mo % 10),
       digitChar (d / 10 % 10), digitChar (d % 10), 'T',
       digitChar (h / 10 % 10), digitChar (h % 10),
       digitChar (mi / 10 % 10), digitChar (mi % 10),
       digitChar (s / 10 % 10), digitChar (s % 10)] : Str).take 4)
      = y := readNat_pad4 y hy
  have e2 : readNat ((([digitChar (y / 1000 % 10), digitChar (y / 100 % 10), digitChar (y / 10 % 10),
       digitChar (y % 10), digitChar (mo / 10 % 10), digitChar (mo % 10),
       digitChar (d / 10 % 10), digitChar (d % 10), 'T',
       digitChar (h / 10 % 10), digitChar (h % 10),
       digitChar (mi / 10 % 10), digitChar (mi % 10),
       digitChar (s / 10 % 10), digitChar (s % 10)] : Str).drop 4).take 2)
      = mo := readNat_pad2 mo hmo
  have e3 : readNat ((([digitChar (y / 1000 % 10), digitChar (y / 100 % 10), digitChar (y / 10 % 10),
       digitChar (y % 10), digitChar (mo / 10 % 10), digitChar (mo % 10),
       digitChar (d / 10 % 10), digitChar (d % 10), 'T',
       digitChar (h / 10 % 10), digitChar (h % 10),
       digitChar (mi / 10 % 10), digitChar (mi % 10),
       digitChar (s / 10 % 10), digitChar (s % 10)] : Str).drop 6).take 2)
      = d := readNat_pad2 d hd
  have e4 : readNat ((([digitChar (y / 1000 % 10), digitChar (y / 100 % 10), digitChar (y / 10 % 10),
       digitChar (y % 10), digitChar (mo / 10 % 10), digitChar (mo % 10),
       digitChar (d / 10 % 10), digitChar (d % 10), 'T',
       digitChar (h / 10 % 10), digitChar (h % 10),
       digitChar (mi / 10 % 10), digitChar (mi % 10),
       digitChar (s / 10 % 10), digitChar (s % 10)] : Str).drop 9).take 2)
      = h := readNat_pad2 h hh
  have e5 : readNat ((([digitChar (y / 1000 % 10), digitChar (y / 100 % 10), digitChar (y / 10 % 10),
       digitChar (y % 10), digitChar (mo / 10 % 10), digitChar (mo % 10),
       digitChar (d / 10 % 10), digitChar (d % 10), 'T',
       digitChar (h / 10 % 10), digitChar (h % 10),
       digitChar (mi / 10 % 10), digitChar (mi % 10),
       digitChar (s / 10 % 10), digitChar (s % 10)] : Str).drop 11).take 2)
      = mi := readNat_pad2 mi hmi
  have e6 : readNat ((([digitChar (y / 1000 % 10), digitChar (y / 100 % 10), digitChar (y / 10 % 10),
       digitChar (y % 10), digitChar (mo / 10 % 10), digitChar (mo % 10),
       digitChar (d / 10 % 10), digitChar (d % 10), 'T',
       digitChar (h / 10 % 10), digitChar (h % 10),
       digitChar (mi / 10 % 10), digitChar (mi % 10),
       digitChar (s / 10 % 10), digitChar (s % 10)] : Str).drop 13).take 2)
      = s := readNat_pad2 s hs
  simp only [e1, e2, e3, e4, e5, e6]

/-- Parsing a date-only value with the all-day flag yields midnight local
time of that calendar date. -/
theorem parseICalDateTime_date (y mo d : Nat) (tz : Int)
    (hy : y < 10000) (hmo : mo < 100) (hd : d < 100) :
    parseICalDateTime (pad4 y ++ pad2 mo ++ pad2 d) true tz =
      ((86400 * dateToDays y mo d : Nat) : Int) - tz := by
  have hflat : (pad4 y ++ pad2 mo ++ pad2 d : Str) = [digitChar (y / 1000 % 10), digitChar (y / 100 % 10), digitChar (y / 10 % 10),
       digitChar (y % 10), digitChar (mo / 10 % 10), digitChar (mo % 10),
       digitChar (d / 10 % 10), digitChar (d % 10)] := rfl
  rw [hflat]
  unfold parseICalDateTime
  rw [if_pos (show true = true from rfl)]
  have e1 : readNat (([digitChar (y / 1000 % 10), digitChar (y / 100 % 10), digitChar (y / 10 % 10),
       digitChar (y % 10), digitChar (mo / 10 % 10), digitChar (mo % 10),
       digitChar (d / 10 % 10), digitChar (d % 10)] : Str).take 4)
      = y := readNat_pad4 y hy
  have e2 : readNat ((([digitChar (y / 1000 % 10), digitChar (y / 100 % 10), digitChar (y / 10 % 10),
       digitChar (y % 10), digitChar (mo / 10 % 10), digitChar (mo % 10),
       digitChar (d / 10 % 10), digitChar (d % 10)] : Str).drop 4).take 2)
      = mo := readNat_pad2 mo hmo
  have e3 : readNat ((([digitChar (y / 1000 % 10), digitChar (y / 100 % 10), digitChar (y / 10 % 10),
       digitChar (y % 10), digitChar (mo / 10 % 10), digitChar (mo % 10),
       digitChar (d / 10 % 10), digitChar (d % 10)] : Str).drop 6).take 2)
      = d := readNat_pad2 d hd
  simp only [e1, e2, e3]

/-- Round trip: parsing a formatted UTC stamp of an instant before the
year 10000 recovers the instant, independent of tz. -/
theorem parseICalDateTime_fmtUTC (t : Nat) (tz : Int) (h : t < 253402300800) :
    parseICalDateTime (formatDateTimeUTC t) false tz = (t : Int) := by
  obtain ⟨hm1, hm2, hd1, hd2, hh2, hmi2, hs2⟩ := epochToDateTime_bounds t
  have hy := epochToDateTime_year_lt t h
  show parseICalDateTime
      (pad4 (epochToDateTime t).year ++ pad2 (epochToDateTime t).month ++
        pad2 (epochToDateTime t).day ++
        'T' :: (pad2 (epochToDateTime t).hour ++ pad2 (epochToDateTime t).minute ++
          pad2 (epochToDateTime t).second) ++ ['Z']) false tz = (t : Int)
  rw [parseICalDateTime_stamp _ _ _ _ _ _ tz hy (by omega) (by omega) (by omega)
    (by omega) (by omega)]
  rw [dateTime_roundtrip t]
/-! ### The property loop on generated lines -/

theorem lineStep_begin_vcalendar (f : VFields) :
    lineStep f (str "BEGIN:VCALENDAR") = f := rfl

theorem lineStep_version (f : VFields) : lineStep f (str "VERSION:2.0") = f := rfl

theorem lineStep_prodid (f : VFields) :
    lineStep f (str "PRODID:-//Velo Mail//CalDAV Client//EN") = f := rfl

theorem lineStep_begin_vevent (f : VFields) :
    lineStep f (str "BEGIN:VEVENT") = f := rfl

theorem lineStep_end_vevent (f : VFields) :
    lineStep f (str "END:VEVENT") = f := rfl

theorem lineStep_end_vcalendar (f : VFields) :
    lineStep f (str "END:VCALENDAR") = f := rfl

theorem lineStep_uid (f : VFields) (v : Str) :
    lineStep f (str "UID:" ++ v) = { f with uid := some v } := rfl

theorem lineStep_dtstamp (f : VFields) (v : Str) :
    lineStep f (str "DTSTAMP:" ++ v) = f := rfl

theorem lineStep_summary (f : VFields) (v : Str) :
    lineStep f (str "SUMMARY:" ++ v) =
      { f with summary := some (unescapeICalText v) } := rfl

theorem lineStep_description (f : VFields) (v : Str) :
    lineStep f (str "DESCRIPTION:" ++ v) =
      { f with description := some (unescapeICalText v) } := rfl

theorem lineStep_location (f : VFields) (v : Str) :
    lineStep f (str "LOCATION:" ++ v) =
      { f with location := some (unescapeICalText v) } := rfl

theorem lineStep_dtstart_plain (f : VFields) (v : Str) :
    lineStep f (str "DTSTART:" ++ v) = { f with dtstart := some v } := by
  have h : lineStep f (str "DTSTART:" ++ v) =
      { f with dtstart := some v, isAllDay := f.isAllDay || false } := rfl
  rw [h, Bool.or_false]

theorem lineStep_dtstart_date (f : VFields) (v : Str) :
    lineStep f (str "DTSTART;VALUE=DATE:" ++ v) =
      { f with dtstart := some v, isAllDay := true } := by
  have h : lineStep f (str "DTSTART;VALUE=DATE:" ++ v) =
      { f with dtstart := some v, isAllDay := f.isAllDay || true } := rfl
  rw [h, Bool.or_true]

theorem lineStep_dtstart_datetime (f : VFields) (v : Str) :
    lineStep f (str "DTSTART;VALUE=DATE-TIME:" ++ v) =
      { f with dtstart := some v } := by
  have h : lineStep f (str "DTSTART;VALUE=DATE-TIME:" ++ v) =
      { f with dtstart := some v, isAllDay := f.isAllDay || false } := rfl
  rw [h, Bool.or_false]

theorem lineStep_dtend_plain (f : VFields) (v : Str) :
    lineStep f (str "DTEND:" ++ v) = { f with dtend := some v } := rfl

theorem lineStep_dtend_date (f : VFields) (v : Str) :
    lineStep f (str "DTEND;VALUE=DATE:" ++ v) = { f with dtend := some v } := rfl

theorem lineStep_attendee (f : VFields) (em : Str) (h : em ≠ []) :
    lineStep f (str "ATTENDEE;RSVP=TRUE:mailto:" ++ em) =
      { f with attendees := f.attendees ++
          [{ email := em, displayName := none, responseStatus := none }] } := by
  cases em with
  | nil => exact absurd rfl h
  | cons c em' => rfl

theorem foldl_attendee_lines (l : List Str) (h : ∀ em ∈ l, em ≠ []) :
    ∀ f : VFields,
    List.foldl lineStep f (l.map (fun em => str "ATTENDEE;RSVP=TRUE:mailto:" ++ em)) =
      { f with attendees := f.attendees ++
          l.map (fun em => { email := em, displayName := none,
                             responseStatus := none : AttendeeData }) } := by
  induction l with
  | nil => intro f; simp
  | cons em l' ih =>
    intro f
    simp only [List.map_cons, List.foldl_cons]
    rw [lineStep_attendee f em (h em (by simp))]
    rw [ih (fun x hx => h x (List.mem_cons_of_mem _ hx))]
    simp [List.append_assoc]
theorem digitChar_ne_CR (q : Nat) : digitChar q ≠ '\r' := by
  unfold digitChar
  split <;> decide

theorem fmtUTC_no_CR (t : Nat) : '\r' ∉ formatDateTimeUTC t := by
  show '\r' ∉
    ([digitChar ((epochToDateTime t).year / 1000 % 10),
      digitChar ((epochToDateTime t).year / 100 % 10),
      digitChar ((epochToDateTime t).year / 10 % 10),
      digitChar ((epochToDateTime t).year % 10),
      digitChar ((epochToDateTime t).month / 10 % 10),
      digitChar ((epochToDateTime t).month % 10),
      digitChar ((epochToDateTime t).day / 10 % 10),
      digitChar ((epochToDateTime t).day % 10), 'T',
      digitChar ((epochToDateTime t).hour / 10 % 10),
      digitChar ((epochToDateTime t).hour % 10),
      digitChar ((epochToDateTime t).minute / 10 % 10),
      digitChar ((epochToDateTime t).minute % 10),
      digitChar ((epochToDateTime t).second / 10 % 10),
      digitChar ((epochToDateTime t).second % 10), 'Z'] : Str)
  intro hmem
  simp only [List.mem_cons, List.not_mem_nil, or_false] at hmem
  rcases hmem with h|h|h|h|h|h|h|h|h|h|h|h|h|h|h|h <;>
    first
      | exact digitChar_ne_CR _ h.symm
      | exact absurd h (by decide)

theorem fmtUTC_no_LF (t : Nat) : '\n' ∉ formatDateTimeUTC t := by
  show '\n' ∉
    ([digitChar ((epochToDateTime t).year / 1000 % 10),
      digitChar ((epochToDateTime t).year / 100 % 10),
      digitChar ((epochToDateTime t).year / 10 % 10),
      digitChar ((epochToDateTime t).year % 10),
      digitChar ((epochToDateTime t).month / 10 % 10),
      digitChar ((epochToDateTime t).month % 10),
      digitChar ((epochToDateTime t).day / 10 % 10),
      digitChar ((epochToDateTime t).day % 10), 'T',
      digitChar ((epochToDateTime t).hour / 10 % 10),
      digitChar ((epochToDateTime t).hour % 10),
      digitChar ((epochToDateTime t).minute / 10 % 10),
      digitChar ((epochToDateTime t).minute % 10),
      digitChar ((epochToDateTime t).second / 10 % 10),
      digitChar ((epochToDateTime t).second % 10), 'Z'] : Str)
  intro hmem
  simp only [List.mem_cons, List.not_mem_nil, or_false] at hmem
  rcases hmem with h|h|h|h|h|h|h|h|h|h|h|h|h|h|h|h <;>
    first
      | exact digitChar_ne_LF _ h.symm
      | exact absurd h (by decide)

theorem fmtUTC_ne_nil (t : Nat) : formatDateTimeUTC t ≠ [] := by
  intro h
  have h2 : (formatDateTimeUTC t).length = 16 := rfl
  rw [h] at h2
  exact absurd h2 (by decide)

theorem good_append (c : Char) (a v : Str)
    (hc1 : c ≠ '\r') (hc2 : c ≠ '\n') (hc3 : c ≠ ' ') (hc4 : c ≠ '\t')
    (ha2 : '\r' ∉ a) (ha3 : '\n' ∉ a) (hv1 : '\r' ∉ v) (hv2 : '\n' ∉ v) :
    (c :: a ++ v) ≠ [] ∧ '\r' ∉ (c :: a ++ v) ∧ '\n' ∉ (c :: a ++ v) ∧
      (c :: a ++ v).head? ≠ some ' ' ∧ (c :: a ++ v).head? ≠ some '\t' := by
  refine ⟨by simp, ?_, ?_, ?_, ?_⟩
  · simp only [List.cons_append, List.mem_cons, List.mem_append]
    rintro (h | h | h)
    · exact hc1 h.symm
    · exact ha2 h
    · exact hv1 h
  · simp only [List.cons_append, List.mem_cons, List.mem_append]
    rintro (h | h | h)
    · exact hc2 h.symm
    · exact ha3 h
    · exact hv2 h
  · simp only [List.cons_append, List.head?_cons, ne_eq, Option.some.injEq]
    exact fun h => hc3 h
  · simp only [List.cons_append, List.head?_cons, ne_eq, Option.some.injEq]
    exact fun h => hc4 h
set_option maxHeartbeats 1600000 in
/-- C1: codec round trip.  For a non-all-day event whose canonical fields
are populated — summary, description and location present, non-empty,
free of carriage returns and containing no backslash directly followed by
the letter n or N; both instants present and before the year 10000; the
attendee list present with non-empty emails free of CR and LF — and any
uid free of CR and LF, decoding the text produced by encoding the event
with that uid restores the uid and all canonical fields: summary,
description and location exactly (including semicolons, commas,
backslashes and embedded newlines), the instants in whole seconds, the
all-day flag, and the attendee emails in order.  The frozen claim
quantifies over every populated event: all-day events do not round-trip
their instants (see the counterexample), and a text with a backslash
directly before an n decodes to a different string. -/
theorem c1_codec_roundtrip
    (tz : Int) (e : VEventInput) (genId uid : Str) (now st et : Nat)
    (su de lo : Str) (atts : List Str)
    (hsu : e.summary = some su) (hsu1 : su ≠ []) (hsu2 : hasBsN su = false)
    (hsu3 : '\r' ∉ su)
    (hde : e.description = some de) (hde1 : de ≠ []) (hde2 : hasBsN de = false)
    (hde3 : '\r' ∉ de)
    (hlo : e.location = some lo) (hlo1 : lo ≠ []) (hlo2 : hasBsN lo = false)
    (hlo3 : '\r' ∉ lo)
    (hst : e.startTime = some st) (het : e.endTime = some et)
    (hstb : st < 253402300800) (hetb : et < 253402300800)
    (hall : e.isAllDay = false)
    (hatt : e.attendees = some atts)
    (hattw : ∀ em ∈ atts, em ≠ [] ∧ '\r' ∉ em ∧ '\n' ∉ em)
    (huid1 : '\r' ∉ uid) (huid2 : '\n' ∉ uid) :
    (parseVEvent tz genId (generateVEvent tz e uid now) none).uid = some uid ∧
    (parseVEvent tz genId (generateVEvent tz e uid now) none).summary = some su ∧
    (parseVEvent tz genId (generateVEvent tz e uid now) none).description = some de ∧
    (parseVEvent tz genId (generateVEvent tz e uid now) none).location = some lo ∧
    (parseVEvent tz genId (generateVEvent tz e uid now) none).startTime = (st : Int) ∧
    (parseVEvent tz genId (generateVEvent tz e uid now) none).endTime = (et : Int) ∧
    (parseVEvent tz genId (generateVEvent tz e uid now) none).isAllDay = false ∧
    ((parseVEvent tz genId (generateVEvent tz e uid now) none).attendeesJson.getD
      []).map AttendeeData.email = atts := by
  have hlines : genVEventLines tz e uid now =
      [str "BEGIN:VCALENDAR", str "VERSION:2.0",
       str "PRODID:-//Velo Mail//CalDAV Client//EN", str "BEGIN:VEVENT",
       str "UID:" ++ uid, str "DTSTAMP:" ++ formatDateTimeUTC now]
      ++ [str "SUMMARY:" ++ escapeICalText su]
      ++ [str "DTSTART:" ++ formatDateTimeUTC st,
          str "DTEND:" ++ formatDateTimeUTC et]
      ++ [str "DESCRIPTION:" ++ escapeICalText de]
      ++ [str "LOCATION:" ++ escapeICalText lo]
      ++ atts.map (fun em => str "ATTENDEE;RSVP=TRUE:mailto:" ++ em)
      ++ [str "END:VEVENT", str "END:VCALENDAR"] := by
    unfold genVEventLines
    rw [hsu, hde, hlo, hst, het, hatt, hall]
    simp [truthyOptStr, hsu1, hde1, hlo1]
  have hgood : ∀ l ∈ genVEventLines tz e uid now,
      l ≠ [] ∧ '\r' ∉ l ∧ '\n' ∉ l ∧
      l.head? ≠ some ' ' ∧ l.head? ≠ some '\t' := by
    rw [hlines]
    intro l hl
    simp only [List.cons_append, List.nil_append, List.mem_cons,
      List.mem_append, List.mem_map, List.not_mem_nil, or_false] at hl
    rcases hl with rfl|rfl|rfl|rfl|rfl|rfl|rfl|rfl|rfl|rfl|rfl|⟨em, hm, rfl⟩|rfl|rfl
    · exact ⟨by decide, by decide, by decide, by decide, by decide⟩
    · exact ⟨by decide, by decide, by decide, by decide, by decide⟩
    · exact ⟨by decide, by decide, by decide, by decide, by decide⟩
    · exact ⟨by decide, by decide, by decide, by decide, by decide⟩
    · exact good_append 'U' (str "ID:") uid (by decide) (by decide) (by decide)
        (by decide) (by decide) (by decide) huid1 huid2
    · exact good_append 'D' (str "TSTAMP:") (formatDateTimeUTC now) (by decide)
        (by decide) (by decide) (by decide) (by decide) (by decide)
        (fmtUTC_no_CR now) (fmtUTC_no_LF now)
    · exact good_append 'S' (str "UMMARY:") (escapeICalText su) (by decide)
        (by decide) (by decide) (by decide) (by decide) (by decide)
        (escape_no_CR su hsu3) (escape_no_LF su)
    · exact good_append 'D' (str "TSTART:") (formatDateTimeUTC st) (by decide)
        (by decide) (by decide) (by decide) (by decide) (by decide)
        (fmtUTC_no_CR st) (fmtUTC_no_LF st)
    · exact good_append 'D' (str "TEND:") (formatDateTimeUTC et) (by decide)
        (by decide) (by decide) (by decide) (by decide) (by decide)
        (fmtUTC_no_CR et) (fmtUTC_no_LF et)
    · exact good_append 'D' (str "ESCRIPTION:") (escapeICalText de) (by decide)
        (by decide) (by decide) (by decide) (by decide) (by decide)
        (escape_no_CR de hde3) (escape_no_LF de)
    · exact good_append 'L' (str "OCATION:") (escapeICalText lo) (by decide)
        (by decide) (by decide) (by decide) (by decide) (by decide)
        (escape_no_CR lo hlo3) (escape_no_LF lo)
    · exact good_append 'A' (str "TTENDEE;RSVP=TRUE:mailto:") em (by decide)
        (by decide) (by decide) (by decide) (by decide) (by decide)
        (hattw em hm).2.1 (hattw em hm).2.2
    · exact ⟨by decide, by decide, by decide, by decide, by decide⟩
    · exact ⟨by decide, by decide, by decide, by decide, by decide⟩
  have hcf : collectFields (generateVEvent tz e uid now) =
      { uid := some uid,
        summary := some su,
        description := some de,
        location := some lo,
        dtstart := some (formatDateTimeUTC st),
        dtend := some (formatDateTimeUTC et),
        status := str "confirmed", organizerEmail := none, isAllDay := false,
        attendees := atts.map (fun em =>
          { email := em, displayName := none, responseStatus := none }) } := by
    unfold collectFields generateVEvent
    rw [unfold_joinCRLF _ hgood, hlines]
    simp only [List.cons_append, List.nil_append, List.foldl_cons,
      List.foldl_append, List.foldl_nil]
    rw [lineStep_begin_vcalendar, lineStep_version, lineStep_prodid,
      lineStep_begin_vevent, lineStep_uid, lineStep_dtstamp, lineStep_summary,
      lineStep_dtstart_plain, lineStep_dtend_plain, lineStep_description,
      lineStep_location,
      foldl_attendee_lines atts (fun em hm => (hattw em hm).1),
      lineStep_end_vevent, lineStep_end_vcalendar]
    rw [unescape_escape su hsu2, unescape_escape de hde2, unescape_escape lo hlo2]
    rfl
  have hts : truthyOptStr (some (formatDateTimeUTC st)) = true := by
    simp [truthyOptStr, fmtUTC_ne_nil st]
  have hte : truthyOptStr (some (formatDateTimeUTC et)) = true := by
    simp [truthyOptStr, fmtUTC_ne_nil et]
  have hD : parseVEvent tz genId (generateVEvent tz e uid now) none =
      { remoteEventId := uid, uid := some uid, etag := none,
        summary := some su, description := some de, location := some lo,
        startTime := (st : Int), endTime := (et : Int), isAllDay := false,
        status := str "confirmed", organizerEmail := none,
        attendeesJson :=
          if (atts.map (fun em =>
                ({ email := em, displayName := none,
                   responseStatus := none } : AttendeeData))).isEmpty then none
          else some (atts.map (fun em =>
                ({ email := em, displayName := none,
                   responseStatus := none } : AttendeeData))),
        htmlLink := none, icalData := some (generateVEvent tz e uid now) } := by
    unfold parseVEvent
    rw [hcf]
    simp [hts, hte, parseICalDateTime_fmtUTC st tz hstb,
      parseICalDateTime_fmtUTC et tz hetb]
  rw [hD]
  refine ⟨rfl, rfl, rfl, rfl, rfl, rfl, rfl, ?_⟩
  cases atts with
  | nil => rfl
  | cons a l =>
    simp only [List.map_cons, List.isEmpty_cons, Bool.false_eq_true, if_false,
      Option.getD_some, List.map_map]
    rw [show (AttendeeData.email ∘ fun em : Str =>
        ({ email := em, displayName := none,
           responseStatus := none } : AttendeeData)) = id from rfl,
      List.map_id]
/-- C1 counterexample: an all-day event with populated fields does not
round-trip its instants.  The encoder writes date-only values from the
local calendar date; the decoder reads them back as local midnight, so
the 01:00 start instant of this event comes back as 00:00 (epoch 0, not
3600), falsifying the frozen claim for all-day events. -/
theorem c1_counterexample :
    (parseVEvent 0 (str "fresh")
      (generateVEvent 0
        { summary := some (str "S"), description := some (str "D"),
          location := some (str "L"), startTime := some 3600,
          endTime := some 7200, isAllDay := true, attendees := some [] }
        (str "u") 0) none).startTime ≠ (3600 : Int) := by decide

/-- Concrete populated non-all-day event for the C1 witness. -/
def c1TestEvent : VEventInput :=
  { summary := some (str "A;B,C\nD"), description := some (str "line1\nline2"),
    location := some (str "Room \\ 5"), startTime := some 86400,
    endTime := some 90000, isAllDay := false,
    attendees := some [str "alice@example.com"] }

theorem c1_codec_roundtrip_witness :
    (parseVEvent 60 (str "gen") (generateVEvent 60 c1TestEvent (str "uid-1") 12345)
      none).uid = some (str "uid-1") ∧
    (parseVEvent 60 (str "gen") (generateVEvent 60 c1TestEvent (str "uid-1") 12345)
      none).summary = some (str "A;B,C\nD") ∧
    (parseVEvent 60 (str "gen") (generateVEvent 60 c1TestEvent (str "uid-1") 12345)
      none).description = some (str "line1\nline2") ∧
    (parseVEvent 60 (str "gen") (generateVEvent 60 c1TestEvent (str "uid-1") 12345)
      none).location = some (str "Room \\ 5") ∧
    (parseVEvent 60 (str "gen") (generateVEvent 60 c1TestEvent (str "uid-1") 12345)
      none).startTime = (86400 : Int) ∧
    (parseVEvent 60 (str "gen") (generateVEvent 60 c1TestEvent (str "uid-1") 12345)
      none).endTime = (90000 : Int) ∧
    (parseVEvent 60 (str "gen") (generateVEvent 60 c1TestEvent (str "uid-1") 12345)
      none).isAllDay = false ∧
    ((parseVEvent 60 (str "gen") (generateVEvent 60 c1TestEvent (str "uid-1") 12345)
      none).attendeesJson.getD []).map AttendeeData.email =
      [str "alice@example.com"] :=
  c1_codec_roundtrip 60 c1TestEvent (str "gen") (str "uid-1") 12345 86400 90000
    (str "A;B,C\nD") (str "line1\nline2") (str "Room \\ 5")
    [str "alice@example.com"]
    rfl (by decide) (by decide) (by decide)
    rfl (by decide) (by decide) (by decide)
    rfl (by decide) (by decide) (by decide)
    rfl rfl (by decide) (by decide) rfl rfl
    (by
      intro em hm
      rw [List.mem_singleton] at hm
      subst hm
      exact ⟨by decide, by decide, by decide⟩)
    (by decide) (by decide)
/-- C3: decoder defaulting.  parseVEvent is a total function of the
input text (the model never throws), and for every input: when the
collected DTSTART value is falsy (no DTSTART line, or an empty value)
the decoded startTime is 0; when the collected DTEND value is falsy the
decoded endTime is startTime + 3600; and when no UID line was collected
and no locator is supplied, the decoded remote id is the freshly
generated identifier. -/
theorem c3_decoder_defaults (tz : Int) (genId text : Str) (href : Option Str) :
    (truthyOptStr (collectFields text).dtstart = false →
      (parseVEvent tz genId text href).startTime = 0) ∧
    (truthyOptStr (collectFields text).dtend = false →
      (parseVEvent tz genId text href).endTime =
        (parseVEvent tz genId text href).startTime + 3600) ∧
    ((collectFields text).uid = none → href = none →
      (parseVEvent tz genId text href).remoteEventId = genId) := by
  refine ⟨?_, ?_, ?_⟩
  · intro h
    unfold parseVEvent
    simp [h]
  · intro h
    unfold parseVEvent
    simp [h]
  · intro h1 h2
    subst h2
    unfold parseVEvent
    simp [h1]

theorem c3_decoder_defaults_witness :
    (parseVEvent 0 (str "gen-1")
      (str "BEGIN:VEVENT\r\nSUMMARY:x\r\nEND:VEVENT") none).startTime = 0 ∧
    (parseVEvent 0 (str "gen-1")
      (str "BEGIN:VEVENT\r\nSUMMARY:x\r\nEND:VEVENT") none).endTime =
      (parseVEvent 0 (str "gen-1")
        (str "BEGIN:VEVENT\r\nSUMMARY:x\r\nEND:VEVENT") none).startTime + 3600 ∧
    (parseVEvent 0 (str "gen-1")
      (str "BEGIN:VEVENT\r\nSUMMARY:x\r\nEND:VEVENT") none).remoteEventId =
      str "gen-1" :=
  ⟨(c3_decoder_defaults 0 (str "gen-1")
      (str "BEGIN:VEVENT\r\nSUMMARY:x\r\nEND:VEVENT") none).1 (by decide),
   (c3_decoder_defaults 0 (str "gen-1")
      (str "BEGIN:VEVENT\r\nSUMMARY:x\r\nEND:VEVENT") none).2.1 (by decide),
   (c3_decoder_defaults 0 (str "gen-1")
      (str "BEGIN:VEVENT\r\nSUMMARY:x\r\nEND:VEVENT") none).2.2 (by decide) rfl⟩
/-! ### Digit-valued DTSTART/DTEND values are single clean lines -/

theorem dateval_no_CR (y mo d : Nat) : '\r' ∉ (pad4 y ++ pad2 mo ++ pad2 d : Str) := by
  show '\r' ∉ ([digitChar (y / 1000 % 10), digitChar (y / 100 % 10), digitChar (y / 10 % 10),
       digitChar (y % 10), digitChar (mo / 10 % 10), digitChar (mo % 10),
       digitChar (d / 10 % 10), digitChar (d % 10)] : Str)
  intro hmem
  simp only [List.mem_cons, List.not_mem_nil, or_false] at hmem
  rcases hmem with h|h|h|h|h|h|h|h <;>
    first
      | exact digitChar_ne_CR _ h.symm
      | exact absurd h (by decide)

theorem dateval_no_LF (y mo d : Nat) : '\n' ∉ (pad4 y ++ pad2 mo ++ pad2 d : Str) := by
  show '\n' ∉ ([digitChar (y / 1000 % 10), digitChar (y / 100 % 10), digitChar (y / 10 % 10),
       digitChar (y % 10), digitChar (mo / 10 % 10), digitChar (mo % 10),
       digitChar (d / 10 % 10), digitChar (d % 10)] : Str)
  intro hmem
  simp only [List.mem_cons, List.not_mem_nil, or_false] at hmem
  rcases hmem with h|h|h|h|h|h|h|h <;>
    first
      | exact digitChar_ne_LF _ h.symm
      | exact absurd h (by decide)

theorem stampZ_no_CR (y mo d h mi s : Nat) : '\r' ∉ (pad4 y ++ pad2 mo ++ pad2 d ++ 'T' :: (pad2 h ++ pad2 mi ++ pad2 s) ++ ['Z'] : Str) := by
  show '\r' ∉ ([digitChar (y / 1000 % 10), digitChar (y / 100 % 10), digitChar (y / 10 % 10),
       digitChar (y % 10), digitChar (mo / 10 % 10), digitChar (mo % 10),
       digitChar (d / 10 % 10), digitChar (d % 10), 'T',
       digitChar (h / 10 % 10), digitChar (h % 10),
       digitChar (mi / 10 % 10), digitChar (mi % 10),
       digitChar (s / 10 % 10), digitChar (s % 10), 'Z'] : Str)
  intro hmem
  simp only [List.mem_cons, List.not_mem_nil, or_false] at hmem
  rcases hmem with h|h|h|h|h|h|h|h|h|h|h|h|h|h|h|h <;>
    first
      | exact digitChar_ne_CR _ h.symm
      | exact absurd h (by decide)

theorem stampZ_no_LF (y mo d h mi s : Nat) : '\n' ∉ (pad4 y ++ pad2 mo ++ pad2 d ++ 'T' :: (pad2 h ++ pad2 mi ++ pad2 s) ++ ['Z'] : Str) := by
  show '\n' ∉ ([digitChar (y / 1000 % 10), digitChar (y / 100 % 10), digitChar (y / 10 % 10),
       digitChar (y % 10), digitChar (mo / 10 % 10), digitChar (mo % 10),
       digitChar (d / 10 % 10), digitChar (d % 10), 'T',
       digitChar (h / 10 % 10), digitChar (h % 10),
       digitChar (mi / 10 % 10), digitChar (mi % 10),
       digitChar (s / 10 % 10), digitChar (s % 10), 'Z'] : Str)
  intro hmem
  simp only [List.mem_cons, List.not_mem_nil, or_false] at hmem
  rcases hmem with h|h|h|h|h|h|h|h|h|h|h|h|h|h|h|h <;>
    first
      | exact digitChar_ne_LF _ h.symm
      | exact absurd h (by decide)

theorem stampL_no_CR (y mo d h mi s : Nat) : '\r' ∉ (pad4 y ++ pad2 mo ++ pad2 d ++ 'T' :: (pad2 h ++ pad2 mi ++ pad2 s) : Str) := by
  show '\r' ∉ ([digitChar (y / 1000 % 10), digitChar (y / 100 % 10), digitChar (y / 10 % 10),
       digitChar (y % 10), digitChar (mo / 10 % 10), digitChar (mo % 10),
       digitChar (d / 10 % 10), digitChar (d % 10), 'T',
       digitChar (h / 10 % 10), digitChar (h % 10),
       digitChar (mi / 10 % 10), digitChar (mi % 10),
       digitChar (s / 10 % 10), digitChar (s % 10)] : Str)
  intro hmem
  simp only [List.mem_cons, List.not_mem_nil, or_false] at hmem
  rcases hmem with h|h|h|h|h|h|h|h|h|h|h|h|h|h|h <;>
    first
      | exact digitChar_ne_CR _ h.symm
      | exact absurd h (by decide)

theorem stampL_no_LF (y mo d h mi s : Nat) : '\n' ∉ (pad4 y ++ pad2 mo ++ pad2 d ++ 'T' :: (pad2 h ++ pad2 mi ++ pad2 s) : Str) := by
  show '\n' ∉ ([digitChar (y / 1000 % 10), digitChar (y / 100 % 10), digitChar (y / 10 % 10),
       digitChar (y % 10), digitChar (mo / 10 % 10), digitChar (mo % 10),
       digitChar (d / 10 % 10), digitChar (d % 10), 'T',
       digitChar (h / 10 % 10), digitChar (h % 10),
       digitChar (mi / 10 % 10), digitChar (mi % 10),
       digitChar (s / 10 % 10), digitChar (s % 10)] : Str)
  intro hmem
  simp only [List.mem_cons, List.not_mem_nil, or_false] at hmem
  rcases hmem with h|h|h|h|h|h|h|h|h|h|h|h|h|h|h <;>
    first
      | exact digitChar_ne_LF _ h.symm
      | exact absurd h (by decide)

/-- C7 (corrected): the all-day decision is made by the DTSTART line
alone — isAllDay is latched exactly when DTSTART's parameters contain
VALUE=DATE but not VALUE=DATE-TIME — and the latched flag governs the
parsing of BOTH values.  When latched, both values are read as YYYYMMDD
at midnight local time; when not latched, values are read as
YYYYMMDD"T"HHMMSS, as UTC with a trailing Z and as local time without
it.  A date-only marker on DTEND alone does not make the event all-day
(its date-only value is then fed to the date-time layout, whose missing
components are outside the modelled numeric range), and VALUE=DATE-TIME
on DTSTART does not either, although VALUE=DATE occurs inside it as a
substring.  The digit bounds keep the values inside the range on which
the Nat-based calendar model is faithful to the JavaScript Date
arithmetic of the source. -/
theorem c7_dt_asymmetry (tz : Int) (g : Str)
    (y mo d hr mi sec y2 mo2 d2 hr2 mi2 sec2 : Nat)
    (hy1 : 1970 ≤ y) (hy2 : y < 10000) (hmo1 : 1 ≤ mo) (hmo2 : mo ≤ 12)
    (hd1 : 1 ≤ d) (hd2 : d < 100) (hhr : hr < 100) (hmi : mi < 100)
    (hsec : sec < 100)
    (hy3 : 1970 ≤ y2) (hy4 : y2 < 10000) (hmo3 : 1 ≤ mo2) (hmo4 : mo2 ≤ 12)
    (hd3 : 1 ≤ d2) (hd4 : d2 < 100) (hhr2 : hr2 < 100) (hmi2 : mi2 < 100)
    (hsec2 : sec2 < 100) :
    ((parseVEvent tz g (joinCRLF [str "BEGIN:VEVENT",
        str "DTSTART;VALUE=DATE:" ++ (pad4 y ++ pad2 mo ++ pad2 d),
        str "DTEND;VALUE=DATE:" ++ (pad4 y2 ++ pad2 mo2 ++ pad2 d2),
        str "END:VEVENT"]) none).isAllDay = true ∧
     (parseVEvent tz g (joinCRLF [str "BEGIN:VEVENT",
        str "DTSTART;VALUE=DATE:" ++ (pad4 y ++ pad2 mo ++ pad2 d),
        str "DTEND;VALUE=DATE:" ++ (pad4 y2 ++ pad2 mo2 ++ pad2 d2),
        str "END:VEVENT"]) none).startTime =
          ((86400 * dateToDays y mo d : Nat) : Int) - tz ∧
     (parseVEvent tz g (joinCRLF [str "BEGIN:VEVENT",
        str "DTSTART;VALUE=DATE:" ++ (pad4 y ++ pad2 mo ++ pad2 d),
        str "DTEND;VALUE=DATE:" ++ (pad4 y2 ++ pad2 mo2 ++ pad2 d2),
        str "END:VEVENT"]) none).endTime =
          ((86400 * dateToDays y2 mo2 d2 : Nat) : Int) - tz) ∧
    ((parseVEvent tz g (joinCRLF [str "BEGIN:VEVENT",
        str "DTSTART:" ++ (pad4 y ++ pad2 mo ++ pad2 d ++
          'T' :: (pad2 hr ++ pad2 mi ++ pad2 sec) ++ ['Z']),
        str "DTEND:" ++ (pad4 y2 ++ pad2 mo2 ++ pad2 d2 ++
          'T' :: (pad2 hr2 ++ pad2 mi2 ++ pad2 sec2) ++ ['Z']),
        str "END:VEVENT"]) none).isAllDay = false ∧
     (parseVEvent tz g (joinCRLF [str "BEGIN:VEVENT",
        str "DTSTART:" ++ (pad4 y ++ pad2 mo ++ pad2 d ++
          'T' :: (pad2 hr ++ pad2 mi ++ pad2 sec) ++ ['Z']),
        str "DTEND:" ++ (pad4 y2 ++ pad2 mo2 ++ pad2 d2 ++
          'T' :: (pad2 hr2 ++ pad2 mi2 ++ pad2 sec2) ++ ['Z']),
        str "END:VEVENT"]) none).startTime =
          ((dateTimeToEpochN y mo d hr mi sec : Nat) : Int) ∧
     (parseVEvent tz g (joinCRLF [str "BEGIN:VEVENT",
        str "DTSTART:" ++ (pad4 y ++ pad2 mo ++ pad2 d ++
          'T' :: (pad2 hr ++ pad2 mi ++ pad2 sec) ++ ['Z']),
        str "DTEND:" ++ (pad4 y2 ++ pad2 mo2 ++ pad2 d2 ++
          'T' :: (pad2 hr2 ++ pad2 mi2 ++ pad2 sec2) ++ ['Z']),
        str "END:VEVENT"]) none).endTime =
          ((dateTimeToEpochN y2 mo2 d2 hr2 mi2 sec2 : Nat) : Int)) ∧
    ((parseVEvent tz g (joinCRLF [str "BEGIN:VEVENT",
        str "DTSTART:" ++ (pad4 y ++ pad2 mo ++ pad2 d ++
          'T' :: (pad2 hr ++ pad2 mi ++ pad2 sec)),
        str "DTEND:" ++ (pad4 y2 ++ pad2 mo2 ++ pad2 d2 ++
          'T' :: (pad2 hr2 ++ pad2 mi2 ++ pad2 sec2)),
        str "END:VEVENT"]) none).isAllDay = false ∧
     (parseVEvent tz g (joinCRLF [str "BEGIN:VEVENT",
        str "DTSTART:" ++ (pad4 y ++ pad2 mo ++ pad2 d ++
          'T' :: (pad2 hr ++ pad2 mi ++ pad2 sec)),
        str "DTEND:" ++ (pad4 y2 ++ pad2 mo2 ++ pad2 d2 ++
          'T' :: (pad2 hr2 ++ pad2 mi2 ++ pad2 sec2)),
        str "END:VEVENT"]) none).startTime =
          ((dateTimeToEpochN y mo d hr mi sec : Nat) : Int) - tz ∧
     (parseVEvent tz g (joinCRLF [str "BEGIN:VEVENT",
        str "DTSTART:" ++ (pad4 y ++ pad2 mo ++ pad2 d ++
          'T' :: (pad2 hr ++ pad2 mi ++ pad2 sec)),
        str "DTEND:" ++ (pad4 y2 ++ pad2 mo2 ++ pad2 d2 ++
          'T' :: (pad2 hr2 ++ pad2 mi2 ++ pad2 sec2)),
        str "END:VEVENT"]) none).endTime =
          ((dateTimeToEpochN y2 mo2 d2 hr2 mi2 sec2 : Nat) : Int) - tz) ∧
    ((parseVEvent tz g (joinCRLF [str "BEGIN:VEVENT",
        str "DTSTART:" ++ (pad4 y ++ pad2 mo ++ pad2 d ++
          'T' :: (pad2 hr ++ pad2 mi ++ pad2 sec) ++ ['Z']),
        str "DTEND;VALUE=DATE:" ++ (pad4 y2 ++ pad2 mo2 ++ pad2 d2),
        str "END:VEVENT"]) none).isAllDay = false ∧
     (parseVEvent tz g (joinCRLF [str "BEGIN:VEVENT",
        str "DTSTART:" ++ (pad4 y ++ pad2 mo ++ pad2 d ++
          'T' :: (pad2 hr ++ pad2 mi ++ pad2 sec) ++ ['Z']),
        str "DTEND;VALUE=DATE:" ++ (pad4 y2 ++ pad2 mo2 ++ pad2 d2),
        str "END:VEVENT"]) none).startTime =
          ((dateTimeToEpochN y mo d hr mi sec : Nat) : Int)) ∧
    ((parseVEvent tz g (joinCRLF [str "BEGIN:VEVENT",
        str "DTSTART;VALUE=DATE-TIME:" ++ (pad4 y ++ pad2 mo ++ pad2 d ++
          'T' :: (pad2 hr ++ pad2 mi ++ pad2 sec) ++ ['Z']),
        str "DTEND:" ++ (pad4 y2 ++ pad2 mo2 ++ pad2 d2 ++
          'T' :: (pad2 hr2 ++ pad2 mi2 ++ pad2 sec2) ++ ['Z']),
        str "END:VEVENT"]) none).isAllDay = false ∧
     (parseVEvent tz g (joinCRLF [str "BEGIN:VEVENT",
        str "DTSTART;VALUE=DATE-TIME:" ++ (pad4 y ++ pad2 mo ++ pad2 d ++
          'T' :: (pad2 hr ++ pad2 mi ++ pad2 sec) ++ ['Z']),
        str "DTEND:" ++ (pad4 y2 ++ pad2 mo2 ++ pad2 d2 ++
          'T' :: (pad2 hr2 ++ pad2 mi2 ++ pad2 sec2) ++ ['Z']),
        str "END:VEVENT"]) none).startTime =
          ((dateTimeToEpochN y mo d hr mi sec : Nat) : Int)) := by
  have htd1 : truthyOptStr (some (pad4 y ++ pad2 mo ++ pad2 d)) = true := by
    simp [truthyOptStr, pad4]
  have htd2 : truthyOptStr (some (pad4 y2 ++ pad2 mo2 ++ pad2 d2)) = true := by
    simp [truthyOptStr, pad4]
  have htz1 : truthyOptStr (some (pad4 y ++ pad2 mo ++ pad2 d ++
      'T' :: (pad2 hr ++ pad2 mi ++ pad2 sec) ++ ['Z'])) = true := by
    simp [truthyOptStr, pad4]
  have htz2 : truthyOptStr (some (pad4 y2 ++ pad2 mo2 ++ pad2 d2 ++
      'T' :: (pad2 hr2 ++ pad2 mi2 ++ pad2 sec2) ++ ['Z'])) = true := by
    simp [truthyOptStr, pad4]
  have htl1 : truthyOptStr (some (pad4 y ++ pad2 mo ++ pad2 d ++
      'T' :: (pad2 hr ++ pad2 mi ++ pad2 sec))) = true := by
    simp [truthyOptStr, pad4]
  have htl2 : truthyOptStr (some (pad4 y2 ++ pad2 mo2 ++ pad2 d2 ++
      'T' :: (pad2 hr2 ++ pad2 mi2 ++ pad2 sec2))) = true := by
    simp [truthyOptStr, pad4]
  have hc1 : collectFields (joinCRLF [str "BEGIN:VEVENT",
      str "DTSTART;VALUE=DATE:" ++ (pad4 y ++ pad2 mo ++ pad2 d),
      str "DTEND;VALUE=DATE:" ++ (pad4 y2 ++ pad2 mo2 ++ pad2 d2),
      str "END:VEVENT"]) =
      { initFields with dtstart := some (pad4 y ++ pad2 mo ++ pad2 d), dtend := some (pad4 y2 ++ pad2 mo2 ++ pad2 d2), isAllDay := true } := by
    unfold collectFields
    rw [unfold_joinCRLF _ (by
      intro l hl
      simp only [List.mem_cons, List.not_mem_nil, or_false] at hl
      rcases hl with rfl|rfl|rfl|rfl
      · exact ⟨by decide, by decide, by decide, by decide, by decide⟩
      · exact good_append 'D' (str "TSTART;VALUE=DATE:") _ (by decide) (by decide)
          (by decide) (by decide) (by decide) (by decide)
          (dateval_no_CR y mo d) (dateval_no_LF y mo d)
      · exact good_append 'D' (str "TEND;VALUE=DATE:") _ (by decide) (by decide)
          (by decide) (by decide) (by decide) (by decide)
          (dateval_no_CR y2 mo2 d2) (dateval_no_LF y2 mo2 d2)
      · exact ⟨by decide, by decide, by decide, by decide, by decide⟩)]
    simp only [List.foldl_cons, List.foldl_nil]
    rw [lineStep_begin_vevent, lineStep_dtstart_date, lineStep_dtend_date,
      lineStep_end_vevent]
  have hc2 : collectFields (joinCRLF [str "BEGIN:VEVENT",
      str "DTSTART:" ++ (pad4 y ++ pad2 mo ++ pad2 d ++
        'T' :: (pad2 hr ++ pad2 mi ++ pad2 sec) ++ ['Z']),
      str "DTEND:" ++ (pad4 y2 ++ pad2 mo2 ++ pad2 d2 ++
        'T' :: (pad2 hr2 ++ pad2 mi2 ++ pad2 sec2) ++ ['Z']),
      str "END:VEVENT"]) =
      { initFields with dtstart := some (pad4 y ++ pad2 mo ++ pad2 d ++ 'T' :: (pad2 hr ++ pad2 mi ++ pad2 sec) ++ ['Z']), dtend := some (pad4 y2 ++ pad2 mo2 ++ pad2 d2 ++ 'T' :: (pad2 hr2 ++ pad2 mi2 ++ pad2 sec2) ++ ['Z']) } := by
    unfold collectFields
    rw [unfold_joinCRLF _ (by
      intro l hl
      simp only [List.mem_cons, List.not_mem_nil, or_false] at hl
      rcases hl with rfl|rfl|rfl|rfl
      · exact ⟨by decide, by decide, by decide, by decide, by decide⟩
      · exact good_append 'D' (str "TSTART:") _ (by decide) (by decide)
          (by decide) (by decide) (by decide) (by decide)
          (stampZ_no_CR y mo d hr mi sec) (stampZ_no_LF y mo d hr mi sec)
      · exact good_append 'D' (str "TEND:") _ (by decide) (by decide)
          (by decide) (by decide) (by decide) (by decide)
          (stampZ_no_CR y2 mo2 d2 hr2 mi2 sec2) (stampZ_no_LF y2 mo2 d2 hr2 mi2 sec2)
      · exact ⟨by decide, by decide, by decide, by decide, by decide⟩)]
    simp only [List.foldl_cons, List.foldl_nil]
    rw [lineStep_begin_vevent, lineStep_dtstart_plain, lineStep_dtend_plain,
      lineStep_end_vevent]
  have hc3 : collectFields (joinCRLF [str "BEGIN:VEVENT",
      str "DTSTART:" ++ (pad4 y ++ pad2 mo ++ pad2 d ++
        'T' :: (pad2 hr ++ pad2 mi ++ pad2 sec)),
      str "DTEND:" ++ (pad4 y2 ++ pad2 mo2 ++ pad2 d2 ++
        'T' :: (pad2 hr2 ++ pad2 mi2 ++ pad2 sec2)),
      str "END:VEVENT"]) =
      { initFields with dtstart := some (pad4 y ++ pad2 mo ++ pad2 d ++ 'T' :: (pad2 hr ++ pad2 mi ++ pad2 sec)), dtend := some (pad4 y2 ++ pad2 mo2 ++ pad2 d2 ++ 'T' :: (pad2 hr2 ++ pad2 mi2 ++ pad2 sec2)) } := by
    unfold collectFields
    rw [unfold_joinCRLF _ (by
      intro l hl
      simp only [List.mem_cons, List.not_mem_nil, or_false] at hl
      rcases hl with rfl|rfl|rfl|rfl
      · exact ⟨by decide, by decide, by decide, by decide, by decide⟩
      · exact good_append 'D' (str "TSTART:") _ (by decide) (by decide)
          (by decide) (by decide) (by decide) (by decide)
          (stampL_no_CR y mo d hr mi sec) (stampL_no_LF y mo d hr mi sec)
      · exact good_append 'D' (str "TEND:") _ (by decide) (by decide)
          (by decide) (by decide) (by decide) (by decide)
          (stampL_no_CR y2 mo2 d2 hr2 mi2 sec2) (stampL_no_LF y2 mo2 d2 hr2 mi2 sec2)
      · exact ⟨by decide, by decide, by decide, by decide, by decide⟩)]
    simp only [List.foldl_cons, List.foldl_nil]
    rw [lineStep_begin_vevent, lineStep_dtstart_plain, lineStep_dtend_plain,
      lineStep_end_vevent]
  have hc4 : collectFields (joinCRLF [str "BEGIN:VEVENT",
      str "DTSTART:" ++ (pad4 y ++ pad2 mo ++ pad2 d ++
        'T' :: (pad2 hr ++ pad2 mi ++ pad2 sec) ++ ['Z']),
      str "DTEND;VALUE=DATE:" ++ (pad4 y2 ++ pad2 mo2 ++ pad2 d2),
      str "END:VEVENT"]) =
      { initFields with dtstart := some (pad4 y ++ pad2 mo ++ pad2 d ++ 'T' :: (pad2 hr ++ pad2 mi ++ pad2 sec) ++ ['Z']), dtend := some (pad4 y2 ++ pad2 mo2 ++ pad2 d2) } := by
    unfold collectFields
    rw [unfold_joinCRLF _ (by
      intro l hl
      simp only [List.mem_cons, List.not_mem_nil, or_false] at hl
      rcases hl with rfl|rfl|rfl|rfl
      · exact ⟨by decide, by decide, by decide, by decide, by decide⟩
      · exact good_append 'D' (str "TSTART:") _ (by decide) (by decide)
          (by decide) (by decide) (by decide) (by decide)
          (stampZ_no_CR y mo d hr mi sec) (stampZ_no_LF y mo d hr mi sec)
      · exact good_append 'D' (str "TEND;VALUE=DATE:") _ (by decide) (by decide)
          (by decide) (by decide) (by decide) (by decide)
          (dateval_no_CR y2 mo2 d2) (dateval_no_LF y2 mo2 d2)
      · exact ⟨by decide, by decide, by decide, by decide, by decide⟩)]
    simp only [List.foldl_cons, List.foldl_nil]
    rw [lineStep_begin_vevent, lineStep_dtstart_plain, lineStep_dtend_date,
      lineStep_end_vevent]
  have hc5 : collectFields (joinCRLF [str "BEGIN:VEVENT",
      str "DTSTART;VALUE=DATE-TIME:" ++ (pad4 y ++ pad2 mo ++ pad2 d ++
        'T' :: (pad2 hr ++ pad2 mi ++ pad2 sec) ++ ['Z']),
      str "DTEND:" ++ (pad4 y2 ++ pad2 mo2 ++ pad2 d2 ++
        'T' :: (pad2 hr2 ++ pad2 mi2 ++ pad2 sec2) ++ ['Z']),
      str "END:VEVENT"]) =
      { initFields with dtstart := some (pad4 y ++ pad2 mo ++ pad2 d ++ 'T' :: (pad2 hr ++ pad2 mi ++ pad2 sec) ++ ['Z']), dtend := some (pad4 y2 ++ pad2 mo2 ++ pad2 d2 ++ 'T' :: (pad2 hr2 ++ pad2 mi2 ++ pad2 sec2) ++ ['Z']) } := by
    unfold collectFields
    rw [unfold_joinCRLF _ (by
      intro l hl
      simp only [List.mem_cons, List.not_mem_nil, or_false] at hl
      rcases hl with rfl|rfl|rfl|rfl
      · exact ⟨by decide, by decide, by decide, by decide, by decide⟩
      · exact good_append 'D' (str "TSTART;VALUE=DATE-TIME:") _ (by decide)
          (by decide) (by decide) (by decide) (by decide) (by decide)
          (stampZ_no_CR y mo d hr mi sec) (stampZ_no_LF y mo d hr mi sec)
      · exact good_append 'D' (str "TEND:") _ (by decide) (by decide)
          (by decide) (by decide) (by decide) (by decide)
          (stampZ_no_CR y2 mo2 d2 hr2 mi2 sec2) (stampZ_no_LF y2 mo2 d2 hr2 mi2 sec2)
      · exact ⟨by decide, by decide, by decide, by decide, by decide⟩)]
    simp only [List.foldl_cons, List.foldl_nil]
    rw [lineStep_begin_vevent, lineStep_dtstart_datetime, lineStep_dtend_plain,
      lineStep_end_vevent]
  refine ⟨⟨?_, ?_, ?_⟩, ⟨?_, ?_, ?_⟩, ⟨?_, ?_, ?_⟩, ⟨?_, ?_⟩, ⟨?_, ?_⟩⟩
  · unfold parseVEvent
    rw [hc1]
  · unfold parseVEvent
    rw [hc1]
    simp only [initFields, Option.getD_some]
    rw [if_pos htd1, parseICalDateTime_date y mo d tz hy2 (by omega) (by omega)]
  · unfold parseVEvent
    rw [hc1]
    simp only [initFields, Option.getD_some]
    rw [if_pos htd2, parseICalDateTime_date y2 mo2 d2 tz hy4 (by omega) (by omega)]
  · unfold parseVEvent
    rw [hc2]
    rfl
  · unfold parseVEvent
    rw [hc2]
    simp only [initFields, Option.getD_some]
    rw [if_pos htz1, parseICalDateTime_stamp y mo d hr mi sec tz hy2 (by omega)
      (by omega) hhr hmi hsec]
  · unfold parseVEvent
    rw [hc2]
    simp only [initFields, Option.getD_some]
    rw [if_pos htz2, parseICalDateTime_stamp y2 mo2 d2 hr2 mi2 sec2 tz hy4
      (by omega) (by omega) hhr2 hmi2 hsec2]
  · unfold parseVEvent
    rw [hc3]
    rfl
  · unfold parseVEvent
    rw [hc3]
    simp only [initFields, Option.getD_some]
    rw [if_pos htl1, parseICalDateTime_stamp_local y mo d hr mi sec tz hy2
      (by omega) (by omega) hhr hmi hsec]
  · unfold parseVEvent
    rw [hc3]
    simp only [initFields, Option.getD_some]
    rw [if_pos htl2, parseICalDateTime_stamp_local y2 mo2 d2 hr2 mi2 sec2 tz hy4
      (by omega) (by omega) hhr2 hmi2 hsec2]
  · unfold parseVEvent
    rw [hc4]
    rfl
  · unfold parseVEvent
    rw [hc4]
    simp only [initFields, Option.getD_some]
    rw [if_pos htz1, parseICalDateTime_stamp y mo d hr mi sec tz hy2 (by omega)
      (by omega) hhr hmi hsec]
  · unfold parseVEvent
    rw [hc5]
    rfl
  · unfold parseVEvent
    rw [hc5]
    simp only [initFields, Option.getD_some]
    rw [if_pos htz1, parseICalDateTime_stamp y mo d hr mi sec tz hy2 (by omega)
      (by omega) hhr hmi hsec]
/-- C7 counterexample: a date-only marker on DTEND alone does not make
the decoded event all-day.  The claim requires isAllDay = true for every
DTSTART or DTEND line whose parameters carry the marker; the program
latches the flag from DTSTART only, so this block decodes with
isAllDay = false. -/
theorem c7_counterexample :
    (parseVEvent 0 (str "g")
      (str "BEGIN:VEVENT\r\nDTSTART:20250701T100000Z\r\nDTEND;VALUE=DATE:20250703\r\nEND:VEVENT")
      none).isAllDay = false := by decide

theorem c7_dt_asymmetry_witness :
    ((parseVEvent 3600 (str "g") (joinCRLF [str "BEGIN:VEVENT",
        str "DTSTART;VALUE=DATE:" ++ (pad4 2025 ++ pad2 6 ++ pad2 15),
        str "DTEND;VALUE=DATE:" ++ (pad4 2026 ++ pad2 7 ++ pad2 16),
        str "END:VEVENT"]) none).isAllDay = true ∧
     (parseVEvent 3600 (str "g") (joinCRLF [str "BEGIN:VEVENT",
        str "DTSTART;VALUE=DATE:" ++ (pad4 2025 ++ pad2 6 ++ pad2 15),
        str "DTEND;VALUE=DATE:" ++ (pad4 2026 ++ pad2 7 ++ pad2 16),
        str "END:VEVENT"]) none).startTime =
          ((86400 * dateToDays 2025 6 15 : Nat) : Int) - 3600 ∧
     (parseVEvent 3600 (str "g") (joinCRLF [str "BEGIN:VEVENT",
        str "DTSTART;VALUE=DATE:" ++ (pad4 2025 ++ pad2 6 ++ pad2 15),
        str "DTEND;VALUE=DATE:" ++ (pad4 2026 ++ pad2 7 ++ pad2 16),
        str "END:VEVENT"]) none).endTime =
          ((86400 * dateToDays 2026 7 16 : Nat) : Int) - 3600) ∧
    ((parseVEvent 3600 (str "g") (joinCRLF [str "BEGIN:VEVENT",
        str "DTSTART:" ++ (pad4 2025 ++ pad2 6 ++ pad2 15 ++
          'T' :: (pad2 10 ++ pad2 30 ++ pad2 0) ++ ['Z']),
        str "DTEND:" ++ (pad4 2026 ++ pad2 7 ++ pad2 16 ++
          'T' :: (pad2 11 ++ pad2 45 ++ pad2 30) ++ ['Z']),
        str "END:VEVENT"]) none).isAllDay = false ∧
     (parseVEvent 3600 (str "g") (joinCRLF [str "BEGIN:VEVENT",
        str "DTSTART:" ++ (pad4 2025 ++ pad2 6 ++ pad2 15 ++
          'T' :: (pad2 10 ++ pad2 30 ++ pad2 0) ++ ['Z']),
        str "DTEND:" ++ (pad4 2026 ++ pad2 7 ++ pad2 16 ++
          'T' :: (pad2 11 ++ pad2 45 ++ pad2 30) ++ ['Z']),
        str "END:VEVENT"]) none).startTime =
          ((dateTimeToEpochN 2025 6 15 10 30 0 : Nat) : Int) ∧
     (parseVEvent 3600 (str "g") (joinCRLF [str "BEGIN:VEVENT",
        str "DTSTART:" ++ (pad4 2025 ++ pad2 6 ++ pad2 15 ++
          'T' :: (pad2 10 ++ pad2 30 ++ pad2 0) ++ ['Z']),
        str "DTEND:" ++ (pad4 2026 ++ pad2 7 ++ pad2 16 ++
          'T' :: (pad2 11 ++ pad2 45 ++ pad2 30) ++ ['Z']),
        str "END:VEVENT"]) none).endTime =
          ((dateTimeToEpochN 2026 7 16 11 45 30 : Nat) : Int)) ∧
    ((parseVEvent 3600 (str "g") (joinCRLF [str "BEGIN:VEVENT",
        str "DTSTART:" ++ (pad4 2025 ++ pad2 6 ++ pad2 15 ++
          'T' :: (pad2 10 ++ pad2 30 ++ pad2 0)),
        str "DTEND:" ++ (pad4 2026 ++ pad2 7 ++ pad2 16 ++
          'T' :: (pad2 11 ++ pad2 45 ++ pad2 30)),
        str "END:VEVENT"]) none).isAllDay = false ∧
     (parseVEvent 3600 (str "g") (joinCRLF [str "BEGIN:VEVENT",
        str "DTSTART:" ++ (pad4 2025 ++ pad2 6 ++ pad2 15 ++
          'T' :: (pad2 10 ++ pad2 30 ++ pad2 0)),
        str "DTEND:" ++ (pad4 2026 ++ pad2 7 ++ pad2 16 ++
          'T' :: (pad2 11 ++ pad2 45 ++ pad2 30)),
        str "END:VEVENT"]) none).startTime =
          ((dateTimeToEpochN 2025 6 15 10 30 0 : Nat) : Int) - 3600 ∧
     (parseVEvent 3600 (str "g") (joinCRLF [str "BEGIN:VEVENT",
        str "DTSTART:" ++ (pad4 2025 ++ pad2 6 ++ pad2 15 ++
          'T' :: (pad2 10 ++ pad2 30 ++ pad2 0)),
        str "DTEND:" ++ (pad4 2026 ++ pad2 7 ++ pad2 16 ++
          'T' :: (pad2 11 ++ pad2 45 ++ pad2 30)),
        str "END:VEVENT"]) none).endTime =
          ((dateTimeToEpochN 2026 7 16 11 45 30 : Nat) : Int) - 3600) ∧
    ((parseVEvent 3600 (str "g") (joinCRLF [str "BEGIN:VEVENT",
        str "DTSTART:" ++ (pad4 2025 ++ pad2 6 ++ pad2 15 ++
          'T' :: (pad2 10 ++ pad2 30 ++ pad2 0) ++ ['Z']),
        str "DTEND;VALUE=DATE:" ++ (pad4 2026 ++ pad2 7 ++ pad2 16),
        str "END:VEVENT"]) none).isAllDay = false ∧
     (parseVEvent 3600 (str "g") (joinCRLF [str "BEGIN:VEVENT",
        str "DTSTART:" ++ (pad4 2025 ++ pad2 6 ++ pad2 15 ++
          'T' :: (pad2 10 ++ pad2 30 ++ pad2 0) ++ ['Z']),
        str "DTEND;VALUE=DATE:" ++ (pad4 2026 ++ pad2 7 ++ pad2 16),
        str "END:VEVENT"]) none).startTime =
          ((dateTimeToEpochN 2025 6 15 10 30 0 : Nat) : Int)) ∧
    ((parseVEvent 3600 (str "g") (joinCRLF [str "BEGIN:VEVENT",
        str "DTSTART;VALUE=DATE-TIME:" ++ (pad4 2025 ++ pad2 6 ++ pad2 15 ++
          'T' :: (pad2 10 ++ pad2 30 ++ pad2 0) ++ ['Z']),
        str "DTEND:" ++ (pad4 2026 ++ pad2 7 ++ pad2 16 ++
          'T' :: (pad2 11 ++ pad2 45 ++ pad2 30) ++ ['Z']),
        str "END:VEVENT"]) none).isAllDay = false ∧
     (parseVEvent 3600 (str "g") (joinCRLF [str "BEGIN:VEVENT",
        str "DTSTART;VALUE=DATE-TIME:" ++ (pad4 2025 ++ pad2 6 ++ pad2 15 ++
          'T' :: (pad2 10 ++ pad2 30 ++ pad2 0) ++ ['Z']),
        str "DTEND:" ++ (pad4 2026 ++ pad2 7 ++ pad2 16 ++
          'T' :: (pad2 11 ++ pad2 45 ++ pad2 30) ++ ['Z']),
        str "END:VEVENT"]) none).startTime =
          ((dateTimeToEpochN 2025 6 15 10 30 0 : Nat) : Int)) :=
  c7_dt_asymmetry 3600 (str "g") 2025 6 15 10 30 0 2026 7 16 11 45 30
    (by decide) (by decide) (by decide) (by decide) (by decide) (by decide) (by decide) (by decide) (by decide) (by decide) (by decide) (by decide) (by decide) (by decide) (by decide) (by decide) (by decide) (by decide)
/-- C8 counterexample: a physical line beginning with a space after a
bare LF is not joined to the previous line.  The claim requires the
SUMMARY split by any space-continuation to decode to "abcd"; the program
unfolds only CRLF followed by whitespace, treats the bare LF as a line
break, and decodes the summary as "ab". -/
theorem c8_counterexample :
    (parseVEvent 0 (str "g")
      (str "BEGIN:VEVENT\r\nSUMMARY:ab\n cd\r\nEND:VEVENT") none).summary =
      some (str "ab") := by decide

/-- C8 (corrected): unfolding removes exactly a CRLF followed by one
space or tab, together with that whitespace character, with no inserted
separator — as a law on the raw text (first conjunct, for any prefix
free of CR so that the single left-to-right scan reaches the seam
unchanged), and at the property level: a SUMMARY value split across two
physical lines by a CRLF-plus-space or CRLF-plus-tab continuation
decodes to the single concatenated logical value.  Bare LF (see the
counterexample) and bare CR act as line breaks instead. -/
theorem c8_unfolding (p q a b : Str) (wsc : Char) (tz : Int) (g : Str)
    (hp : '\r' ∉ p) (hwsc : wsc = ' ' ∨ wsc = '\t')
    (ha1 : '\r' ∉ a) (ha2 : '\n' ∉ a) (hb1 : '\r' ∉ b) (hb2 : '\n' ∉ b) :
    unfoldLines (p ++ '\r' :: '\n' :: wsc :: q) = unfoldLines (p ++ q) ∧
    (parseVEvent tz g
      (str "BEGIN:VEVENT" ++ '\r' :: '\n' ::
        ((str "SUMMARY:" ++ a) ++ '\r' :: '\n' :: wsc ::
          (b ++ '\r' :: '\n' :: str "END:VEVENT"))) none).summary =
      some (unescapeICalText (a ++ b)) := by
  have hSa : '\r' ∉ (str "SUMMARY:" ++ a) := by
    intro hm
    rcases List.mem_append.mp hm with h | h
    · exact absurd h (by decide)
    · exact ha1 h
  have hSaLF : '\n' ∉ (str "SUMMARY:" ++ a) := by
    intro hm
    rcases List.mem_append.mp hm with h | h
    · exact absurd h (by decide)
    · exact ha2 h
  constructor
  · exact unfoldLines_continuation p q wsc hp hwsc
  have hR : removeCRLFWS (str "BEGIN:VEVENT" ++ '\r' :: '\n' ::
      ((str "SUMMARY:" ++ a) ++ '\r' :: '\n' :: wsc ::
        (b ++ '\r' :: '\n' :: str "END:VEVENT"))) =
      str "BEGIN:VEVENT" ++ '\r' :: '\n' ::
        ((str "SUMMARY:" ++ a) ++ (b ++ '\r' :: '\n' :: str "END:VEVENT")) := by
    rw [removeCRLFWS_append (str "BEGIN:VEVENT") _ (by decide)]
    rw [show ((str "SUMMARY:" ++ a) ++ '\r' :: '\n' :: wsc ::
        (b ++ '\r' :: '\n' :: str "END:VEVENT")) =
        'S' :: ((str "UMMARY:" ++ a) ++ '\r' :: '\n' :: wsc ::
        (b ++ '\r' :: '\n' :: str "END:VEVENT")) from rfl]
    rw [removeCRLFWS_crlf 'S' _ (by decide) (by decide)]
    rw [show ('S' : Char) :: ((str "UMMARY:" ++ a) ++ '\r' :: '\n' :: wsc ::
        (b ++ '\r' :: '\n' :: str "END:VEVENT")) =
        (str "SUMMARY:" ++ a) ++ '\r' :: '\n' :: wsc ::
        (b ++ '\r' :: '\n' :: str "END:VEVENT") from rfl]
    rw [removeCRLFWS_append (str "SUMMARY:" ++ a) _ hSa]
    rw [removeCRLFWS_crlf_ws wsc _ hwsc]
    rw [removeCRLFWS_append b _ hb1]
    rw [show ('\r' :: '\n' :: str "END:VEVENT" : Str) =
        '\r' :: '\n' :: 'E' :: str "ND:VEVENT" from rfl]
    rw [removeCRLFWS_crlf 'E' _ (by decide) (by decide)]
    rw [removeCRLFWS_id ('E' :: str "ND:VEVENT") (by decide)]
  have hU : unfoldLines (str "BEGIN:VEVENT" ++ '\r' :: '\n' ::
      ((str "SUMMARY:" ++ a) ++ '\r' :: '\n' :: wsc ::
        (b ++ '\r' :: '\n' :: str "END:VEVENT"))) =
      [str "BEGIN:VEVENT", str "SUMMARY:" ++ (a ++ b), str "END:VEVENT"] := by
    unfold unfoldLines
    rw [hR]
    rw [crlfToLF_append (str "BEGIN:VEVENT") _ (by decide)]
    rw [crlfToLF_crlf]
    rw [crlfToLF_append (str "SUMMARY:" ++ a) _ hSa]
    rw [crlfToLF_append b _ hb1]
    rw [show ('\r' :: '\n' :: str "END:VEVENT" : Str) =
        '\r' :: '\n' :: 'E' :: str "ND:VEVENT" from rfl]
    rw [crlfToLF_crlf]
    rw [show crlfToLF ('E' :: str "ND:VEVENT") = 'E' :: str "ND:VEVENT" from by decide]
    rw [crToLF_id _ (by
      intro hm
      simp only [List.mem_append, List.mem_cons] at hm
      rcases hm with h | h | h | h | h | h
      · exact absurd h (by decide)
      · exact absurd h (by decide)
      · rcases h with h | h
        · exact absurd h (by decide)
        · exact ha1 h
      · exact hb1 h
      · exact absurd h (by decide)
      · exact absurd h (by decide))]
    rw [splitAll_append_sep '\n' (str "BEGIN:VEVENT") _ (by decide)]
    rw [← List.append_assoc]
    rw [show ('\n' :: 'E' :: str "ND:VEVENT" : Str) =
        '\n' :: ('E' :: str "ND:VEVENT") from rfl]
    rw [splitAll_append_sep '\n' ((str "SUMMARY:" ++ a) ++ b) _ (by
      intro hm
      rcases List.mem_append.mp hm with h | h
      · exact hSaLF h
      · exact hb2 h)]
    rw [splitAll_no_sep '\n' ('E' :: str "ND:VEVENT") (by decide)]
    rw [show ('E' :: str "ND:VEVENT" : Str) = str "END:VEVENT" from rfl]
    rw [List.append_assoc]
    rw [List.filter_eq_self.mpr (by
      intro l hl
      simp only [List.mem_cons, List.not_mem_nil, or_false] at hl
      rcases hl with rfl | rfl | rfl
      · decide
      · exact decide_eq_true (by
          rw [show (str "SUMMARY:" ++ (a ++ b) : Str) =
            'S' :: (str "UMMARY:" ++ (a ++ b)) from rfl]
          simp)
      · decide)]
  have hcf8 : collectFields (str "BEGIN:VEVENT" ++ '\r' :: '\n' ::
      ((str "SUMMARY:" ++ a) ++ '\r' :: '\n' :: wsc ::
        (b ++ '\r' :: '\n' :: str "END:VEVENT"))) =
      { initFields with summary := some (unescapeICalText (a ++ b)) } := by
    unfold collectFields
    rw [hU]
    simp only [List.foldl_cons, List.foldl_nil]
    rw [lineStep_begin_vevent, lineStep_summary, lineStep_end_vevent]
  unfold parseVEvent
  rw [hcf8]
theorem c8_unfolding_witness :
    unfoldLines (str "A:B" ++ '\r' :: '\n' :: ' ' :: str "C") =
      unfoldLines (str "A:B" ++ str "C") ∧
    (parseVEvent 0 (str "g")
      (str "BEGIN:VEVENT" ++ '\r' :: '\n' ::
        ((str "SUMMARY:" ++ str "ab") ++ '\r' :: '\n' :: ' ' ::
          (str "cd" ++ '\r' :: '\n' :: str "END:VEVENT"))) none).summary =
      some (unescapeICalText (str "ab" ++ str "cd")) :=
  c8_unfolding (str "A:B") (str "C") (str "ab") (str "cd") ' ' 0 (str "g")
    (by decide) (by decide) (by decide) (by decide) (by decide) (by decide)
/-! ## Token-based provider (googleCalendarProvider.ts)

The injected authenticated request function is modelled as a backend
oracle mapping the index of each issued request to a thrown error message
or a parsed JSON response; thrown values are modelled by their message
(a non-Error throw is the empty message).  URLs are modelled by the query
parameters the source puts into them (`GReq`). -/

/-- Result of a JavaScript async call: resolved value or thrown message. -/
inductive PRes (α : Type) where
  | ok (val : α)
  | err (msg : Str)
deriving DecidableEq, Repr

/-- Google event time field: the `dateTime` ISO string is modelled by the
instant it denotes; `date` by the calendar date components. -/
structure GTimeField where
  dateTime : Option Int
  date : Option (Nat × Nat × Nat)
deriving DecidableEq, Repr

/-- A remote Google calendar event record. -/
structure GCalEvent where
  id : Str
  summary : Option Str
  description : Option Str
  location : Option Str
  gstart : GTimeField
  gend : GTimeField
  status : Option Str
  organizerEmail : Option Str
  attendees : Option (List AttendeeData)
  htmlLink : Option Str
  iCalUID : Option Str
  etag : Option Str
deriving DecidableEq, Repr

/-- One page of the events list endpoint. -/
structure GListResp where
  items : List GCalEvent
  nextPageToken : Option Str
  nextSyncToken : Option Str
deriving DecidableEq, Repr

/-- `CalendarSyncResult` of types.ts. -/
structure CalendarSyncResult where
  created : List CalendarEventData
  updated : List CalendarEventData
  deletedRemoteIds : List Str
  newSyncToken : Option Str
  newCtag : Option Str
deriving DecidableEq, Repr

/-- `mapGoogleEvent` of googleCalendarProvider.ts: all-day iff a date-only
start is present; `date` values are read at local midnight (start) and
23:59:59 (end); missing statuses default to confirmed. -/
def mapGoogleEvent (tz : Int) (ev : GCalEvent) : CalendarEventData :=
  { remoteEventId := ev.id
    uid := ev.iCalUID
    etag := ev.etag
    summary := ev.summary
    description := ev.description
    location := ev.location
    startTime := match ev.gstart.dateTime with
      | some t => t
      | none => match ev.gstart.date with
        | some (y, m, d) => ((86400 * dateToDays y m d : Nat) : Int) - tz
        | none => 0
    endTime := match ev.gend.dateTime with
      | some t => t
      | none => match ev.gend.date with
        | some (y, m, d) => ((86400 * dateToDays y m d + 86399 : Nat) : Int) - tz
        | none => 0
    isAllDay := ev.gstart.date.isSome
    status := match ev.status with
      | some s => s
      | none => str "confirmed"
    organizerEmail := ev.organizerEmail
    attendeesJson := ev.attendees
    htmlLink := ev.htmlLink
    icalData := none }

/-- Is this item a cancellation (status exactly "cancelled")? -/
def gIsCancelled (ev : GCalEvent) : Bool := decide (ev.status = some (str "cancelled"))

/-- The token-invalidity heuristic of syncEvents: the thrown message
contains "410" or "sync token". -/
def tokenInvalidError (msg : Str) : Bool :=
  containsSeg (str "410") msg || containsSeg (str "sync token") msg

/-- The empty sync result returned on token expiry. -/
def emptySyncResult : CalendarSyncResult :=
  { created := [], updated := [], deletedRemoteIds := [], newSyncToken := none,
    newCtag := none }

/-- The query parameters of one events-list request. -/
structure GReq where
  syncToken : Option Str
  timeMin : Option Int
  timeMax : Option Int
  singleEvents : Bool
  pageToken : Option Str
  maxResults : Nat
deriving DecidableEq, Repr

/-- The instant one calendar year after `now` in the fixed-offset local
timezone (setFullYear(+1)): same local calendar date-time, next year. -/
def localPlusOneYear (tz : Int) (now : Nat) : Int :=
  let p := epochToDateTime ((now : Int) + tz).toNat
  ((dateTimeToEpochN (p.year + 1) p.month p.day p.hour p.minute p.second : Nat) : Int) - tz

/-- The request parameters built by one syncEvents loop iteration: with a
sync token, the token alone; without one, the 90-days-back window, the
one-year-forward bound and single-event expansion. -/
def mkGReq (syncToken : Option Str) (tz : Int) (now : Nat)
    (pageToken : Option Str) : GReq :=
  match syncToken with
  | some t =>
    { syncToken := some t, timeMin := none, timeMax := none, singleEvents := false,
      pageToken := pageToken, maxResults := 250 }
  | none =>
    { syncToken := none, timeMin := some ((now : Int) - 90 * 86400),
      timeMax := some (localPlusOneYear tz now), singleEvents := true,
      pageToken := pageToken, maxResults := 250 }

/-- The page loop of GoogleCalendarProvider.syncEvents, with the issued
requests recorded.  `fuel` bounds the number of iterations (the source
loops while a continuation token is present); exhausted fuel returns the
accumulated state as a terminal page would. -/
def gSyncLoop (tz : Int) (now : Nat) (backend : Nat → PRes GListResp)
    (syncToken : Option Str) :
    Nat → Nat → List CalendarEventData → List Str → Option Str → Option Str →
    PRes CalendarSyncResult × List GReq
  | 0, _, created, deleted, nextSync, _ =>
    (.ok { created := created, updated := [], deletedRemoteIds := deleted,
           newSyncToken := nextSync, newCtag := none }, [])
  | fuel + 1, i, created, deleted, nextSync, pageToken =>
    let req := mkGReq syncToken tz now pageToken
    match backend i with
    | .err msg =>
      if tokenInvalidError msg then (.ok emptySyncResult, [req])
      else (.err msg, [req])
    | .ok resp =>
      let created2 :=
        created ++ (resp.items.filter (fun it => !gIsCancelled it)).map (mapGoogleEvent tz)
      let deleted2 := deleted ++ (resp.items.filter gIsCancelled).map GCalEvent.id
      let nextSync2 := match resp.nextSyncToken with
        | some t => some t
        | none => nextSync
      match resp.nextPageToken with
      | some pt =>
        let r := gSyncLoop tz now backend syncToken fuel (i + 1) created2 deleted2
          nextSync2 (some pt)
        (r.1, req :: r.2)
      | none =>
        (.ok { created := created2, updated := [], deletedRemoteIds := deleted2,
               newSyncToken := nextSync2, newCtag := none }, [req])

/-- GoogleCalendarProvider.syncEvents: run the page loop from an empty
accumulator. -/
def gSyncEvents (tz : Int) (now : Nat) (backend : Nat → PRes GListResp)
    (syncToken : Option Str) (fuel : Nat) : PRes CalendarSyncResult × List GReq :=
  gSyncLoop tz now backend syncToken fuel 0 [] [] none none

/-- C2: token expiry — any page request that throws a message containing
the token-invalidity indicator makes syncEvents return the empty
SyncResult (all lists empty, both markers absent) instead of re-throwing,
at whatever loop state the failure occurs; any thrown message not
matching the indicator propagates unchanged, and every error the loop
ever propagates is a non-matching one. -/
theorem c2_token_expiry (tz : Int) (now : Nat) (backend : Nat → PRes GListResp)
    (syncToken : Option Str) :
    (∀ fuel i created deleted nextSync pageToken msg,
      (gSyncLoop tz now backend syncToken fuel i created deleted nextSync
        pageToken).1 = .err msg →
      tokenInvalidError msg = false) ∧
    (∀ fuel i created deleted nextSync pageToken msg,
      backend i = .err msg → tokenInvalidError msg = true →
      (gSyncLoop tz now backend syncToken (fuel + 1) i created deleted nextSync
        pageToken).1 = .ok emptySyncResult) ∧
    (∀ fuel i created deleted nextSync pageToken msg,
      backend i = .err msg → tokenInvalidError msg = false →
      (gSyncLoop tz now backend syncToken (fuel + 1) i created deleted nextSync
        pageToken).1 = .err msg) ∧
    (∀ fuel msg, backend 0 = .err msg → tokenInvalidError msg = true →
      (gSyncEvents tz now backend syncToken (fuel + 1)).1 = .ok emptySyncResult) := by
  have hprop : ∀ fuel i created deleted nextSync pageToken msg,
      (gSyncLoop tz now backend syncToken fuel i created deleted nextSync
        pageToken).1 = .err msg →
      tokenInvalidError msg = false := by
    intro fuel
    induction fuel with
    | zero =>
      intro i created deleted nextSync pageToken msg h
      simp [gSyncLoop] at h
    | succ n ih =>
      intro i created deleted nextSync pageToken msg h
      rw [gSyncLoop] at h
      cases hb : backend i with
      | err m =>
        rw [hb] at h
        by_cases hm : tokenInvalidError m = true
        · simp [hm] at h
        · simp [hm] at h
          subst h
          simpa using hm
      | ok resp =>
        rw [hb] at h
        simp only at h
        cases hpt : resp.nextPageToken with
        | some pt =>
          rw [hpt] at h
          simp only at h
          exact ih _ _ _ _ _ _ h
        | none =>
          rw [hpt] at h
          simp at h
  have hexp : ∀ fuel i created deleted nextSync pageToken msg,
      backend i = .err msg → tokenInvalidError msg = true →
      (gSyncLoop tz now backend syncToken (fuel + 1) i created deleted nextSync
        pageToken).1 = .ok emptySyncResult := by
    intro fuel i created deleted nextSync pageToken msg hb hm
    rw [gSyncLoop, hb]
    simp [hm]
  refine ⟨hprop, hexp, ?_, ?_⟩
  · intro fuel i created deleted nextSync pageToken msg hb hm
    rw [gSyncLoop, hb]
    simp [hm]
  · intro fuel msg hb hm
    exact hexp fuel 0 [] [] none none msg hb hm

/-- C2 witness: a thrown "410 Gone: sync token expired" on the first page
yields the empty result; a thrown "Network error" propagates. -/
theorem c2_token_expiry_witness :
    ((fun _ => PRes.err (α := GListResp) (str "410 Gone: sync token expired")) 0 =
      PRes.err (str "410 Gone: sync token expired")) ∧
    tokenInvalidError (str "410 Gone: sync token expired") = true ∧
    (gSyncEvents 0 0 (fun _ => .err (str "410 Gone: sync token expired"))
      (some (str "expired-token")) 3).1 = .ok emptySyncResult ∧
    (gSyncLoop 0 0 (fun _ => .err (str "Network error")) (some (str "t")) 3 0 [] []
      none none).1 = .err (str "Network error") :=
  ⟨rfl, by decide,
   (c2_token_expiry 0 0 (fun _ => .err (str "410 Gone: sync token expired"))
      (some (str "expired-token"))).2.2.2 2 _ rfl (by decide),
   (c2_token_expiry 0 0 (fun _ => .err (str "Network error"))
      (some (str "t"))).2.2.1 2 0 [] [] none none _ rfl (by decide)⟩

/-- C4: pagination — when the first response carries a continuation page
token and the second a terminal sync token and no page token, syncEvents
issues exactly two requests (the second carrying that page token), and
returns the classified union, in order, of both pages' items together
with the terminal sync token. -/
theorem c4_pagination (tz : Int) (now : Nat) (backend : Nat → PRes GListResp)
    (tok pt st : Str) (r1 r2 : GListResp) (fuel : Nat)
    (hb0 : backend 0 = .ok r1) (hpt1 : r1.nextPageToken = some pt)
    (hb1 : backend 1 = .ok r2) (hpt2 : r2.nextPageToken = none)
    (hst : r2.nextSyncToken = some st) (hfuel : 2 ≤ fuel) :
    gSyncEvents tz now backend (some tok) fuel =
      (.ok { created := ((r1.items ++ r2.items).filter
                (fun it => !gIsCancelled it)).map (mapGoogleEvent tz)
             updated := []
             deletedRemoteIds :=
               ((r1.items ++ r2.items).filter gIsCancelled).map GCalEvent.id
             newSyncToken := some st
             newCtag := none },
       [mkGReq (some tok) tz now none, mkGReq (some tok) tz now (some pt)]) := by
  obtain ⟨k, rfl⟩ : ∃ k, fuel = k + 2 := ⟨fuel - 2, by omega⟩
  unfold gSyncEvents
  rw [show k + 2 = (k + 1) + 1 from rfl]
  rw [gSyncLoop, hb0]
  simp only [hpt1]
  rw [gSyncLoop, hb1]
  simp only [hpt2, hst]
  simp [List.filter_append, List.map_append]

/-- First test event. -/
def c4TestEvt1 : GCalEvent :=
  { id := str "evt-1", summary := some (str "Page 1"), description := none,
    location := none, gstart := { dateTime := some 100, date := none },
    gend := { dateTime := some 200, date := none }, status := none,
    organizerEmail := none, attendees := none, htmlLink := none,
    iCalUID := none, etag := none }

/-- Second test event. -/
def c4TestEvt2 : GCalEvent :=
  { id := str "evt-2", summary := some (str "Page 2"), description := none,
    location := none, gstart := { dateTime := some 300, date := none },
    gend := { dateTime := some 400, date := none }, status := none,
    organizerEmail := none, attendees := none, htmlLink := none,
    iCalUID := none, etag := none }

/-- First test page: one event and a continuation page token. -/
def c4TestPage1 : GListResp :=
  { items := [c4TestEvt1], nextPageToken := some (str "page-2-token"),
    nextSyncToken := none }

/-- Second test page: one event, a terminal sync token, no page token. -/
def c4TestPage2 : GListResp :=
  { items := [c4TestEvt2], nextPageToken := none,
    nextSyncToken := some (str "final-sync-token") }

/-- Two-page test backend. -/
def c4TestBackend (i : Nat) : PRes GListResp :=
  if i = 0 then .ok c4TestPage1 else .ok c4TestPage2

/-- C4 witness: the pagination law on the repository test's two-page
backend: exactly two requests, the second carrying the page token, and
both items returned with the terminal token. -/
theorem c4_pagination_witness :
    c4TestBackend 0 = .ok c4TestPage1 ∧
    c4TestPage1.nextPageToken = some (str "page-2-token") ∧
    gSyncEvents 0 0 c4TestBackend (some (str "token")) 2 =
      (.ok { created := ((c4TestPage1.items ++ c4TestPage2.items).filter
                (fun it => !gIsCancelled it)).map (mapGoogleEvent 0)
             updated := []
             deletedRemoteIds :=
               ((c4TestPage1.items ++ c4TestPage2.items).filter gIsCancelled).map
                 GCalEvent.id
             newSyncToken := some (str "final-sync-token")
             newCtag := none },
       [mkGReq (some (str "token")) 0 0 none,
        mkGReq (some (str "token")) 0 0 (some (str "page-2-token"))]) :=
  ⟨by rfl, by rfl,
   c4_pagination 0 0 c4TestBackend (str "token") (str "page-2-token")
     (str "final-sync-token") c4TestPage1 c4TestPage2 2 (by rfl) (by rfl) (by rfl)
     (by rfl) (by rfl) (by omega)⟩

/-- `UpdateEventInput` of types.ts: every field optional; `none` models a
field left undefined. -/
structure UpdateEventInput where
  summary : Option Str
  description : Option Str
  location : Option Str
  startTime : Option Str
  endTime : Option Str
  isAllDay : Option Bool
deriving DecidableEq, Repr

/-- A start/end entry of the PATCH body: date-only or date-time with the
caller's timezone name.  The `new Date(...).toISOString()` conversion is
modelled as the identity on the supplied ISO string. -/
inductive GPatchTime where
  | dateOnly (d : Str)
  | withTime (iso : Str) (tzName : Str)
deriving DecidableEq, Repr

/-- The PATCH body assembled by GoogleCalendarProvider.updateEvent; absent
entries are keys not serialized into the JSON body. -/
structure GPatchBody where
  summary : Option Str
  description : Option Str
  location : Option Str
  gstart : Option GPatchTime
  gend : Option GPatchTime
deriving DecidableEq, Repr

/-- Everything of a string before the first "T" (the model of
`split("T")[0]`). -/
def takeUntilT : Str → Str
  | [] => []
  | c :: rest => if c = 'T' then [] else c :: takeUntilT rest

/-- GoogleCalendarProvider.updateEvent body construction: summary,
description and location are included exactly when defined; start and end
are included only when both startTime and endTime are truthy (JavaScript
truthiness: present and non-empty), using the date-only form when
isAllDay is truthy. -/
def buildUpdateBody (tzName : Str) (e : UpdateEventInput) : GPatchBody :=
  let base : GPatchBody :=
    { summary := e.summary, description := e.description, location := e.location,
      gstart := none, gend := none }
  if truthyOptStr e.startTime && truthyOptStr e.endTime then
    let s := e.startTime.getD []
    let en := e.endTime.getD []
    if e.isAllDay = some true then
      { base with gstart := some (.dateOnly (takeUntilT s)),
                  gend := some (.dateOnly (takeUntilT en)) }
    else
      { base with gstart := some (.withTime s tzName),
                  gend := some (.withTime en tzName) }
  else base

/-- C10: the PATCH body includes start and end only when both startTime
and endTime are supplied (truthy); when either is absent, neither start
nor end is sent; summary, description and location are each included
exactly when they are defined in the input. -/
theorem c10_update_patch (tzName : Str) (e : UpdateEventInput) :
    (buildUpdateBody tzName e).summary = e.summary ∧
    (buildUpdateBody tzName e).description = e.description ∧
    (buildUpdateBody tzName e).location = e.location ∧
    ((e.startTime = none ∨ e.endTime = none) →
      (buildUpdateBody tzName e).gstart = none ∧
      (buildUpdateBody tzName e).gend = none) ∧
    (((buildUpdateBody tzName e).gstart.isSome ∨
        (buildUpdateBody tzName e).gend.isSome) →
      e.startTime.isSome ∧ e.endTime.isSome) := by
  unfold buildUpdateBody
  by_cases ht : truthyOptStr e.startTime && truthyOptStr e.endTime
  · rw [if_pos ht]
    have hst : e.startTime.isSome := by
      rcases hs : e.startTime with _ | v
      · rw [hs] at ht; simp [truthyOptStr] at ht
      · simp
    have het : e.endTime.isSome := by
      rcases hs : e.endTime with _ | v
      · rw [hs] at ht; simp [truthyOptStr] at ht
      · simp
    by_cases hA : e.isAllDay = some true
    · rw [if_pos hA]
      refine ⟨rfl, rfl, rfl, ?_, fun _ => ⟨hst, het⟩⟩
      intro h
      rcases h with h | h
      · rw [h] at hst; simp at hst
      · rw [h] at het; simp at het
    · rw [if_neg hA]
      refine ⟨rfl, rfl, rfl, ?_, fun _ => ⟨hst, het⟩⟩
      intro h
      rcases h with h | h
      · rw [h] at hst; simp at hst
      · rw [h] at het; simp at het
  · rw [if_neg ht]
    refine ⟨rfl, rfl, rfl, fun _ => ⟨rfl, rfl⟩, ?_⟩
    intro h
    simp at h

/-- C10 witness: an input with only a startTime supplied sends neither
start nor end while the defined summary is included. -/
theorem c10_update_patch_witness :
    (({ summary := some (str "New title"), description := none, location := none,
        startTime := some (str "2025-06-20T14:00:00Z"), endTime := none,
        isAllDay := none } : UpdateEventInput).endTime = none) ∧
    (buildUpdateBody (str "UTC")
      { summary := some (str "New title"), description := none, location := none,
        startTime := some (str "2025-06-20T14:00:00Z"), endTime := none,
        isAllDay := none }).gstart = none ∧
    (buildUpdateBody (str "UTC")
      { summary := some (str "New title"), description := none, location := none,
        startTime := some (str "2025-06-20T14:00:00Z"), endTime := none,
        isAllDay := none }).gend = none ∧
    (buildUpdateBody (str "UTC")
      { summary := some (str "New title"), description := none, location := none,
        startTime := some (str "2025-06-20T14:00:00Z"), endTime := none,
        isAllDay := none }).summary = some (str "New title") :=
  ⟨rfl,
   ((c10_update_patch (str "UTC")
      { summary := some (str "New title"), description := none, location := none,
        startTime := some (str "2025-06-20T14:00:00Z"), endTime := none,
        isAllDay := none }).2.2.2.1 (Or.inr rfl)).1,
   ((c10_update_patch (str "UTC")
      { summary := some (str "New title"), description := none, location := none,
        startTime := some (str "2025-06-20T14:00:00Z"), endTime := none,
        isAllDay := none }).2.2.2.1 (Or.inr rfl)).2,
   (c10_update_patch (str "UTC")
      { summary := some (str "New title"), description := none, location := none,
        startTime := some (str "2025-06-20T14:00:00Z"), endTime := none,
        isAllDay := none }).1⟩

/-! ## Resource-based provider (caldavProvider.ts) -/

/-- A calendar object returned by the WebDAV fetch. -/
structure DAVObjectM where
  url : Str
  etag : Option Str
  data : Option Str
deriving DecidableEq, Repr

/-- The time-range fetch request issued by CalDAVProvider.syncEvents. -/
structure CdFetchReq where
  calendarUrl : Str
  timeStart : Int
  timeEnd : Int
deriving DecidableEq, Repr

/-- CalDAVProvider.syncEvents: a full time-windowed refetch (90 calendar
days back, one calendar year forward via setFullYear), decoding every
object that has a payload into `created` and leaving everything else
empty/absent.  `objects` is the server's response to the recorded request;
`genId` is the identifier the codec would draw for a UID-less resource. -/
def cdSyncEvents (tz : Int) (genId : Str) (now : Nat) (calendarUrl : Str)
    (objects : List DAVObjectM) : CalendarSyncResult × CdFetchReq :=
  ({ created := objects.filterMap (fun o => o.data.map (fun d =>
        { parseVEvent tz genId d (some o.url) with etag := o.etag }))
     updated := []
     deletedRemoteIds := []
     newSyncToken := none
     newCtag := none },
   { calendarUrl := calendarUrl
     timeStart := (now : Int) - 90 * 86400
     timeEnd := localPlusOneYear tz now })

theorem epochToDateTime_year_ge (t : Nat) : 1970 ≤ (epochToDateTime t).year := by
  obtain ⟨k, hk, _, _⟩ := yearFromDays_spec (t / 86400)
  unfold epochToDateTime epochToDate
  simp only
  rw [hk]
  omega

/-- Moving a calendar date-time one year forward shifts the day count by
365 or 366 days. -/
theorem dateToDays_next_year (y m d : Nat) (hy : 1970 ≤ y) (hm1 : 1 ≤ m)
    (hm2 : m ≤ 12) :
    dateToDays (y + 1) m d = dateToDays y m d + 365 ∨
    dateToDays (y + 1) m d = dateToDays y m d + 366 := by
  have hdse : daysSinceEpochOfYear (y + 1) = daysSinceEpochOfYear y + daysInYear y := by
    have h1 : y + 1 - 1970 = (y - 1970) + 1 := by omega
    unfold daysSinceEpochOfYear
    rw [h1, yearsSpanN_succ_right]
    have h2 : 1970 + (y - 1970) = y := by omega
    rw [h2]
  unfold dateToDays
  rw [hdse]
  unfold daysInYear
  interval_cases m <;>
    cases hl1 : isLeap y <;> cases hl2 : isLeap (y + 1) <;>
    simp_all [monthLens, sumTake] <;> omega

/-- C5: resource-provider degenerate sync — corrected: the fetch window
runs from 90 days back to the same local calendar date-time one year
forward (365 or 366 days, not always 365); every decoded resource (those
with a payload) lands in `created` in order, resources without a payload
are dropped, and `updated`, `deletedRemoteIds` and both sync markers are
always empty/absent. -/
theorem c5_caldav_sync (tz : Int) (genId : Str) (now : Nat) (url : Str)
    (objs : List DAVObjectM) (htz : 0 ≤ (now : Int) + tz) :
    (cdSyncEvents tz genId now url objs).1.created =
      objs.filterMap (fun o => o.data.map (fun d =>
        { parseVEvent tz genId d (some o.url) with etag := o.etag })) ∧
    (cdSyncEvents tz genId now url objs).1.updated = [] ∧
    (cdSyncEvents tz genId now url objs).1.deletedRemoteIds = [] ∧
    (cdSyncEvents tz genId now url objs).1.newSyncToken = none ∧
    (cdSyncEvents tz genId now url objs).1.newCtag = none ∧
    (cdSyncEvents tz genId now url objs).2.timeStart = (now : Int) - 90 * 86400 ∧
    (∃ k : Nat, (k = 365 ∨ k = 366) ∧
      (cdSyncEvents tz genId now url objs).2.timeEnd = (now : Int) + k * 86400) := by
  refine ⟨rfl, rfl, rfl, rfl, rfl, rfl, ?_⟩
  unfold cdSyncEvents localPlusOneYear
  simp only
  set lo := ((now : Int) + tz).toNat with hlo
  have hloeq : (lo : Int) = (now : Int) + tz := by
    rw [hlo]
    exact Int.toNat_of_nonneg htz
  obtain ⟨hm1, hm2, _, _, _, _, _⟩ := epochToDateTime_bounds lo
  have hyge := epochToDateTime_year_ge lo
  have hrt := dateTime_roundtrip lo
  rcases dateToDays_next_year (epochToDateTime lo).year (epochToDateTime lo).month
      (epochToDateTime lo).day hyge hm1 hm2 with hcase | hcase
  · refine ⟨365, Or.inl rfl, ?_⟩
    unfold dateTimeToEpochN at *
    rw [hcase]
    push_cast
    omega
  · refine ⟨366, Or.inr rfl, ?_⟩
    unfold dateTimeToEpochN at *
    rw [hcase]
    push_cast
    omega

/-- C5 counterexample: starting from 2023-06-15 00:00:00 UTC the window
end is 366 days ahead (the span contains 2024-02-29), so the claimed
"365 days forward" window does not hold. -/
theorem c5_counterexample :
    (cdSyncEvents 0 (str "g") 1686787200 (str "/cal/") []).2.timeEnd ≠
      (1686787200 : Int) + 365 * 86400 := by
  decide

/-- C5 witness: the amended description evaluated on the repository
test's two-object response. -/
theorem c5_caldav_sync_witness :
    (0 : Int) ≤ (3600 : Nat) + (0 : Int) ∧
    (cdSyncEvents 0 (str "g") 3600 (str "/cal/personal/")
      [{ url := str "/cal/personal/a.ics", etag := some (str "e1"),
         data := some (str "BEGIN:VEVENT\r\nUID:a\r\nEND:VEVENT") },
       { url := str "/cal/personal/b.ics", etag := some (str "e2"),
         data := none }]).1.updated = [] ∧
    (cdSyncEvents 0 (str "g") 3600 (str "/cal/personal/")
      [{ url := str "/cal/personal/a.ics", etag := some (str "e1"),
         data := some (str "BEGIN:VEVENT\r\nUID:a\r\nEND:VEVENT") },
       { url := str "/cal/personal/b.ics", etag := some (str "e2"),
         data := none }]).1.newSyncToken = none ∧
    (∃ k : Nat, (k = 365 ∨ k = 366) ∧
      (cdSyncEvents 0 (str "g") 3600 (str "/cal/personal/")
        [{ url := str "/cal/personal/a.ics", etag := some (str "e1"),
           data := some (str "BEGIN:VEVENT\r\nUID:a\r\nEND:VEVENT") },
         { url := str "/cal/personal/b.ics", etag := some (str "e2"),
           data := none }]).2.timeEnd = ((3600 : Nat) : Int) + k * 86400) :=
  ⟨by decide,
   (c5_caldav_sync 0 (str "g") 3600 (str "/cal/personal/")
     [{ url := str "/cal/personal/a.ics", etag := some (str "e1"),
        data := some (str "BEGIN:VEVENT\r\nUID:a\r\nEND:VEVENT") },
      { url := str "/cal/personal/b.ics", etag := some (str "e2"),
        data := none }] (by decide)).2.1,
   (c5_caldav_sync 0 (str "g") 3600 (str "/cal/personal/")
     [{ url := str "/cal/personal/a.ics", etag := some (str "e1"),
        data := some (str "BEGIN:VEVENT\r\nUID:a\r\nEND:VEVENT") },
      { url := str "/cal/personal/b.ics", etag := some (str "e2"),
        data := none }] (by decide)).2.2.2.1,
   (c5_caldav_sync 0 (str "g") 3600 (str "/cal/personal/")
     [{ url := str "/cal/personal/a.ics", etag := some (str "e1"),
        data := some (str "BEGIN:VEVENT\r\nUID:a\r\nEND:VEVENT") },
      { url := str "/cal/personal/b.ics", etag := some (str "e2"),
        data := none }] (by decide)).2.2.2.2.2.2⟩

/-- A DAVClient session object; `loggedIn` records whether its login ever
succeeded. -/
structure DavClientObj where
  loggedIn : Bool
deriving DecidableEq, Repr

/-- The mutable provider state: the cached `this.client`. -/
structure CalDavState where
  client : Option DavClientObj
deriving DecidableEq, Repr

/-- The account fields read by CalDAVProvider.getClient. -/
structure CalDavAccount where
  caldav_url : Option Str
  caldav_username : Option Str
  email : Str
  caldav_password : Option Str
deriving DecidableEq, Repr

/-- CalDAVProvider.getClient: return the cached client if present; else
check credentials, construct a new DAVClient, assign it to `this.client`,
then await login.  `loginOk` is whether `login()` resolves.  Returns the
call result, the state after the call, and whether a login was attempted.
Mirrors the source exactly: the client is cached before login, and a
login failure does not clear the cache. -/
def cdGetClient (account : Option CalDavAccount) (loginOk : Bool)
    (st : CalDavState) : PRes DavClientObj × CalDavState × Bool :=
  match st.client with
  | some c => (.ok c, st, false)
  | none =>
    match account with
    | none => (.err (str "Account not found"), st, false)
    | some a =>
      if truthyOptStr a.caldav_url && truthyOptStr a.caldav_password then
        if loginOk then (.ok { loggedIn := true }, { client := some { loggedIn := true } }, true)
        else (.err (str "login failed"), { client := some { loggedIn := false } }, true)
      else (.err (str "CalDAV credentials not configured"), st, false)

/-- CalDAVProvider.testConnection: getClient then fetchCalendars; any
throw is caught, the cached client is reset to null, and a failure result
is returned. -/
def cdTestConnection (account : Option CalDavAccount) (loginOk fetchOk : Bool)
    (st : CalDavState) : Bool × CalDavState :=
  match cdGetClient account loginOk st with
  | (.err _, _, _) => (false, { client := none })
  | (.ok _, st2, _) =>
    if fetchOk then (true, st2) else (false, { client := none })

/-- A CalDAV account with valid credentials. -/
def c6TestAccount : CalDavAccount :=
  { caldav_url := some (str "https://cal.example.com"),
    caldav_username := none, email := str "u@example.com",
    caldav_password := some (str "pw") }

/-- C6: the connection is indeed established lazily and cached, but the
claimed invalidation on login failure does not happen in getClient: after
a failed login the never-logged-in client object stays cached, and the
next call returns it without attempting login — only testConnection
resets the cache in its catch handler.  This closed evaluation exhibits
the divergence. -/
theorem c6_login_failure_poisons_cache :
    (cdGetClient (some c6TestAccount) false { client := none }).1 =
      .err (str "login failed") ∧
    (cdGetClient (some c6TestAccount) false { client := none }).2.1 =
      { client := some { loggedIn := false } } ∧
    (cdGetClient (some c6TestAccount) false { client := none }).2.2 = true ∧
    (cdGetClient (some c6TestAccount) true
      { client := some { loggedIn := false } }).1 = .ok { loggedIn := false } ∧
    (cdGetClient (some c6TestAccount) true
      { client := some { loggedIn := false } }).2.2 = false ∧
    (cdTestConnection (some c6TestAccount) false true { client := none }).2 =
      { client := none } := by
  decide

/-! ## Provider factory (providerFactory) -/

/-- The account fields the factory inspects. -/
structure DbAccount where
  provider : Str
  calendar_provider : Option Str
  caldav_url : Option Str
deriving DecidableEq, Repr

/-- The two concrete provider implementations. -/
inductive ProviderKind where
  | caldav
  | google
deriving DecidableEq, Repr

/-- A resolved provider instance; `instanceNum` models JavaScript object
identity (each constructor call yields a fresh number). -/
structure ProviderInst where
  kind : ProviderKind
  accountId : Str
  instanceNum : Nat
deriving DecidableEq, Repr

/-- The module-level provider cache plus the instance counter. -/
structure FactoryState where
  cache : List (Str × ProviderInst)
  counter : Nat
deriving DecidableEq, Repr

/-- Association-list lookup of the provider cache. -/
def assocFind (id : Str) : List (Str × ProviderInst) → Option ProviderInst
  | [] => none
  | kv :: rest => if kv.1 = id then some kv.2 else assocFind id rest

/-- Backend selection order of getCalendarProvider: standalone CalDAV
account, then IMAP account with CalDAV calendar settings (requires a
truthy caldav_url), then Gmail-API / Google-calendar account (with the
source's duplicate gmail_api arm kept), else unconfigured. -/
def selectKind (a : DbAccount) : Option ProviderKind :=
  if a.provider = str "caldav" then some .caldav
  else if a.calendar_provider = some (str "caldav") ∧ truthyOptStr a.caldav_url then
    some .caldav
  else if a.provider = str "gmail_api" ∨ a.calendar_provider = some (str "google_api") then
    some .google
  else if a.provider = str "gmail_api" then some .google
  else none

/-- getCalendarProvider: return the cached instance when present;
otherwise look the account up, select the backend, construct a fresh
instance and memoize it.  A missing account or an unconfigured one
throws. -/
def getCalendarProvider (accounts : Str → Option DbAccount) (id : Str)
    (st : FactoryState) : PRes ProviderInst × FactoryState :=
  match assocFind id st.cache with
  | some p => (.ok p, st)
  | none =>
    match accounts id with
    | none => (.err (str "Account " ++ id ++ str " not found"), st)
    | some a =>
      match selectKind a with
      | none =>
        (.err (str "No calendar provider configured for account " ++ id), st)
      | some k =>
        let inst : ProviderInst :=
          { kind := k, accountId := id, instanceNum := st.counter }
        (.ok inst, { cache := (id, inst) :: st.cache, counter := st.counter + 1 })

/-- removeCalendarProvider: drop the cache entry of one account. -/
def removeCalendarProvider (id : Str) (st : FactoryState) : FactoryState :=
  { cache := st.cache.filter (fun kv => decide (kv.1 ≠ id)), counter := st.counter }

/-- clearAllCalendarProviders: drop every cache entry. -/
def clearAllCalendarProviders (st : FactoryState) : FactoryState :=
  { cache := [], counter := st.counter }

theorem assocFind_filter_ne (id : Str) (cache : List (Str × ProviderInst)) :
    assocFind id (cache.filter (fun kv => decide (kv.1 ≠ id))) = none := by
  induction cache with
  | nil => rfl
  | cons kv rest ih =>
    rw [List.filter_cons]
    by_cases h : kv.1 = id
    · rw [show (decide (kv.1 ≠ id)) = false by simp [h]]
      simpa using ih
    · rw [show (decide (kv.1 ≠ id)) = true by simp [h]]
      simp only [if_true, reduceIte]
      rw [assocFind, if_neg h]
      exact ih

/-- C9: provider factory — selection follows the account configuration
(resource provider for an explicit caldav account or one carrying caldav
calendar settings with a configured URL; Google provider for a gmail_api
or google_api account; an error otherwise), the resolved instance is
memoized so a repeated call returns the identical instance, and
removal/clearing invalidate the memo. -/
theorem c9_provider_factory (accounts : Str → Option DbAccount) (id : Str)
    (st : FactoryState) (a : DbAccount) :
    (∀ p, assocFind id st.cache = some p →
      getCalendarProvider accounts id st = (.ok p, st)) ∧
    (a.provider = str "caldav" → selectKind a = some .caldav) ∧
    (a.provider ≠ str "caldav" → a.calendar_provider = some (str "caldav") →
      truthyOptStr a.caldav_url = true → selectKind a = some .caldav) ∧
    (a.provider ≠ str "caldav" →
      ¬(a.calendar_provider = some (str "caldav") ∧ truthyOptStr a.caldav_url) →
      (a.provider = str "gmail_api" ∨ a.calendar_provider = some (str "google_api")) →
      selectKind a = some .google) ∧
    (a.provider ≠ str "caldav" → a.provider ≠ str "gmail_api" →
      ¬(a.calendar_provider = some (str "caldav") ∧ truthyOptStr a.caldav_url) →
      a.calendar_provider ≠ some (str "google_api") →
      selectKind a = none) ∧
    (assocFind id st.cache = none → accounts id = some a → selectKind a = none →
      ∃ msg, getCalendarProvider accounts id st = (.err msg, st)) ∧
    (∀ p st2, getCalendarProvider accounts id st = (.ok p, st2) →
      getCalendarProvider accounts id st2 = (.ok p, st2)) ∧
    (assocFind id (removeCalendarProvider id st).cache = none) ∧
    ((clearAllCalendarProviders st).cache = []) := by
  refine ⟨?_, ?_, ?_, ?_, ?_, ?_, ?_, assocFind_filter_ne id st.cache, rfl⟩
  · intro p h
    unfold getCalendarProvider
    rw [h]
  · intro h
    unfold selectKind
    rw [if_pos h]
  · intro h1 h2 h3
    unfold selectKind
    rw [if_neg h1, if_pos ⟨h2, h3⟩]
  · intro h1 h2 h3
    unfold selectKind
    rw [if_neg h1, if_neg h2, if_pos h3]
  · intro h1 h2 h3 h4
    unfold selectKind
    rw [if_neg h1, if_neg h3, if_neg (by tauto), if_neg h2]
  · intro h1 h2 h3
    unfold getCalendarProvider
    simp only [h1, h2, h3]
    exact ⟨_, rfl⟩
  · intro p st2 h
    unfold getCalendarProvider at h ⊢
    cases hc : assocFind id st.cache with
    | some q =>
      simp only [hc, Prod.mk.injEq, PRes.ok.injEq] at h
      obtain ⟨hq, hst⟩ := h
      subst hq
      subst hst
      simp only [hc]
    | none =>
      cases ha : accounts id with
      | none =>
        simp only [hc, ha, Prod.mk.injEq, reduceCtorEq, false_and] at h
      | some a2 =>
        cases hs : selectKind a2 with
        | none =>
          simp only [hc, ha, hs, Prod.mk.injEq, reduceCtorEq, false_and] at h
        | some k =>
          simp only [hc, ha, hs, Prod.mk.injEq, PRes.ok.injEq] at h
          obtain ⟨hp, hst⟩ := h
          subst hp
          subst hst
          simp [assocFind]

/-- A Gmail-API account for the factory witness. -/
def c9TestAccount : DbAccount :=
  { provider := str "gmail_api", calendar_provider := none, caldav_url := none }

/-- Account lookup for the factory witness. -/
def c9Accounts (i : Str) : Option DbAccount :=
  if i = str "acc-1" then some c9TestAccount else none

/-- The instance the factory creates on the first call. -/
def c9Inst : ProviderInst :=
  { kind := .google, accountId := str "acc-1", instanceNum := 0 }

/-- The factory state after the first call. -/
def c9St1 : FactoryState := { cache := [(str "acc-1", c9Inst)], counter := 1 }

/-- C9 witness: selection, memoization and invalidation evaluated on a
concrete Gmail account. -/
theorem c9_provider_factory_witness :
    c9TestAccount.provider = str "gmail_api" ∧
    selectKind c9TestAccount = some .google ∧
    getCalendarProvider c9Accounts (str "acc-1") { cache := [], counter := 0 } =
      (.ok c9Inst, c9St1) ∧
    getCalendarProvider c9Accounts (str "acc-1") c9St1 = (.ok c9Inst, c9St1) ∧
    assocFind (str "acc-1") (removeCalendarProvider (str "acc-1") c9St1).cache = none ∧
    (clearAllCalendarProviders c9St1).cache = [] :=
  ⟨by decide,
   (c9_provider_factory c9Accounts (str "acc-1") { cache := [], counter := 0 }
      c9TestAccount).2.2.2.1 (by decide) (by decide) (Or.inl (by decide)),
   by decide,
   (c9_provider_factory c9Accounts (str "acc-1") { cache := [], counter := 0 }
      c9TestAccount).2.2.2.2.2.2.1 c9Inst c9St1 (by decide),
   (c9_provider_factory c9Accounts (str "acc-1") c9St1 c9TestAccount).2.2.2.2.2.2.2.1,
   (c9_provider_factory c9Accounts (str "acc-1") c9St1 c9TestAccount).2.2.2.2.2.2.2.2⟩
